import Mathlib

/-!
# Flight_Management: boarding dashboard front end

A shallow embedding of the client code that keeps a gate-control view in step
with the boarding queue:

* `src/frontend/src/hooks/useSocket.js` (`SocketProvider`): the React state
  `socket`, `isConnected`, `boardingQueue`, `passengers`, the socket event
  handlers and `joinPassengerRoom` / `emitEvent`;
* `src/frontend/src/components/GateControl/GateControl.js`: the merge of pushed
  and polled data, the rendered rows and the Board button;
* `src/frontend/src/components/Common/ConnectionStatus.js`;
* `src/frontend/src/services/api.js` (`airplaneAPI` and the response interceptor);
* `src/frontend/src/components/CheckIn/CheckIn.js`: `validateField`,
  `validateForm`, `handleSubmit`;
* `src/frontend/src/App.js`: the route table, with the navigation targets of
  `CheckIn.js` and `FlightDetails.js`;
* `src/frontend/src/components/FlightDetails/FlightDetails.js`: the
  special-assistance buttons.

The server that owns the boarding queue is not among the sources; where a
property is about it, it is modelled from the specification and marked so.

React state is passed explicitly; a handler returns the next state together
with the list of side effects it performs, in program order.

JavaScript values are typed as the program uses them: a queue is an array of
triples, a passengers object is a list of key/value pairs, and a property that
may be absent (`undefined`) is an `Option`.  Arrays and objects are always
truthy, so `x || d` on such a property is `d` exactly when the property is
absent; strings are falsy when empty.
-/

namespace FlightManagement

/-! ## Data model -/

/-- One queue entry, transmitted as the array `[priority, timeSlot, passengerId]`. -/
abbrev QueueEntry := Nat × String × Nat

/-- The display fields of a passenger record; each may be absent. -/
structure Passenger where
  name : Option String
  flightNumber : Option String
  boardingClass : Option String
  boardingPass : Option String
  specialNeeds : Option String
  deriving DecidableEq, Repr

/-- A passengers object: own properties in insertion order, keyed by passengerId. -/
abbrev PassengerMap := List (Nat × Passenger)

/-- The result of `Object.keys(o)` for a passengers object. -/
def objectKeys (o : PassengerMap) : List Nat :=
  o.map Prod.fst

/-- Property read `o[k]`: `none` stands for `undefined`. -/
def getProp (o : PassengerMap) (k : Nat) : Option Passenger :=
  o.lookup k

/-- The expression `x || d` where `x` is an array or object property that may be absent. -/
def jsOr {α : Type} (x : Option α) (d : α) : α :=
  match x with
  | some v => v
  | none => d

/-- The expression `x || d` where `x` is a string property that may be absent:
the empty string is falsy. -/
def jsOrStr (x : Option String) (d : String) : String :=
  match x with
  | some v => if v = "" then d else v
  | none => d

/-- A value that is a number or a string. -/
inductive Scalar where
  | num (n : Nat)
  | str (s : String)
  deriving DecidableEq, Repr

/-- Conversion of a scalar inside a template literal. -/
def Scalar.render : Scalar → String
  | .num n => toString n
  | .str s => s

/-- A plain object with scalar fields, such as the literal with the single field `passengerId`. -/
abbrev Record := List (String × Scalar)

/-- An argument passed to an API method. -/
inductive Arg where
  | undefined
  | scalar (v : Scalar)
  | record (r : Record)
  deriving DecidableEq, Repr

/-- Conversion of an argument inside a template literal. -/
def Arg.render : Arg → String
  | .undefined => "undefined"
  | .scalar v => v.render
  | .record _ => "[object Object]"

/-- The body of a POST request: the argument itself, or an object literal
whose fields hold arguments. -/
inductive Body where
  | value (a : Arg)
  | fields (fs : List (String × Arg))
  deriving DecidableEq, Repr

/-- An HTTP request made through the axios instance `api`. -/
structure ApiRequest where
  method : String
  url : String
  body : Option Body
  deriving DecidableEq, Repr

/-- Side effects performed by handlers, in program order. -/
inductive Effect where
  | consoleLog (msg : String)
  | consoleError (msg : String)
  | consoleWarn (msg : String)
  | toastSuccess (msg : String)
  | toastError (msg : String)
  | toastPlain (msg : String)
  | emit (eventName : String) (data : Record)
  | httpRequest (req : ApiRequest)
  | invalidateQueries (key : String)
  deriving DecidableEq, Repr

/-- An effect that pulls a snapshot: a request to `/gate-control` or an
invalidation of the `gateControl` query. -/
def Effect.isFetch : Effect → Bool
  | .httpRequest req => req.url == "/gate-control"
  | .invalidateQueries key => key == "gateControl"
  | _ => false

/-- An effect that sends an event over the socket. -/
def Effect.isEmit : Effect → Bool
  | .emit _ _ => true
  | _ => false

/-! ## `hooks/useSocket.js` -/

/-- The socket object created by `io(socketURL, ...)`. -/
structure SocketHandle where
  url : String
  deriving DecidableEq, Repr

/-- The React state of `SocketProvider` (the four `useState` cells). -/
structure ProviderState where
  socket : Option SocketHandle
  isConnected : Bool
  boardingQueue : List QueueEntry
  passengers : PassengerMap
  deriving DecidableEq, Repr

/-- The payload of a `boarding_update` event: both properties may be absent. -/
structure BoardingUpdate where
  queue : Option (List QueueEntry)
  passengers : Option PassengerMap
  deriving DecidableEq, Repr

/-- The events `SocketProvider` registers a handler for. -/
inductive SocketEvent where
  | connect
  | disconnect (reason : String)
  | connect_error (error : String)
  | boarding_update (data : BoardingUpdate)
  | flight_announcement (message : String)
  deriving DecidableEq, Repr

/-- The initial values of the four `useState` cells. -/
def initialState : ProviderState :=
  { socket := none, isConnected := false, boardingQueue := [], passengers := [] }

/-- The value of `process.env.REACT_APP_SOCKET_URL || 'http://localhost:5000'`. -/
def socketURL (env : Option String) : String :=
  jsOrStr env "http://localhost:5000"

/-- The mount effect: the socket is created, the handlers are registered and
`setSocket(newSocket)` runs. -/
def mount (env : Option String) (s : ProviderState) : ProviderState :=
  { s with socket := some { url := socketURL env } }

/-- Handler of `connect`. -/
def onConnect (s : ProviderState) : ProviderState × List Effect :=
  ({ s with isConnected := true },
   [.consoleLog "Connected to server", .toastSuccess "Connected to real-time updates"])

/-- Handler of `disconnect`. -/
def onDisconnect (s : ProviderState) (reason : String) : ProviderState × List Effect :=
  ({ s with isConnected := false },
   [.consoleLog ("Disconnected from server: " ++ reason),
    .toastError "Connection lost. Attempting to reconnect..."])

/-- Handler of `connect_error`. -/
def onConnectError (s : ProviderState) (error : String) : ProviderState × List Effect :=
  ({ s with isConnected := false },
   [.consoleError ("Connection error: " ++ error), .toastError "Failed to connect to server"])

/-- Handler of `boarding_update`. -/
def onBoardingUpdate (s : ProviderState) (data : BoardingUpdate) : ProviderState × List Effect :=
  ({ s with boardingQueue := jsOr data.queue [], passengers := jsOr data.passengers [] },
   [.consoleLog "Boarding update received", .toastSuccess "Boarding queue updated"])

/-- Handler of `flight_announcement`. -/
def onFlightAnnouncement (s : ProviderState) (message : String) : ProviderState × List Effect :=
  (s, [.consoleLog "Flight announcement", .toastPlain message])

/-- Dispatch of one socket event to its registered handler. -/
def handleEvent (s : ProviderState) : SocketEvent → ProviderState × List Effect
  | .connect => onConnect s
  | .disconnect reason => onDisconnect s reason
  | .connect_error error => onConnectError s error
  | .boarding_update data => onBoardingUpdate s data
  | .flight_announcement message => onFlightAnnouncement s message

/-- The handlers run one after the other on a sequence of events; effects accumulate. -/
def runEvents (s : ProviderState) : List SocketEvent → ProviderState × List Effect
  | [] => (s, [])
  | e :: es =>
    let r := handleEvent s e
    let rest := runEvents r.1 es
    (rest.1, r.2 ++ rest.2)

/-- `joinPassengerRoom(passengerId)`. -/
def joinPassengerRoom (s : ProviderState) (passengerId : Nat) : ProviderState × List Effect :=
  if s.socket.isSome && s.isConnected then
    (s, [.emit "join_passenger_room" [("passengerId", .num passengerId)]])
  else
    (s, [])

/-- `emitEvent(eventName, data)`. -/
def emitEvent (s : ProviderState) (eventName : String) (data : Record) :
    ProviderState × List Effect :=
  if s.socket.isSome && s.isConnected then
    (s, [.emit eventName data])
  else
    (s, [.consoleWarn ("Socket not connected. Cannot emit event: " ++ eventName)])

/-- The three channel-level lifecycle events. -/
def SocketEvent.isLifecycle : SocketEvent → Bool
  | .connect => true
  | .disconnect _ => true
  | .connect_error _ => true
  | _ => false

/-- The most recent lifecycle event of a sequence, if any. -/
def lastLifecycle (es : List SocketEvent) : Option SocketEvent :=
  (es.filter SocketEvent.isLifecycle).getLast?

/-! ## `services/api.js` -/

/-- `api.get(url)`. -/
def apiGet (url : String) : ApiRequest :=
  { method := "GET", url := url, body := none }

/-- `api.post(url, body)`. -/
def apiPost (url : String) (body : Body) : ApiRequest :=
  { method := "POST", url := url, body := some body }

/-- The object `airplaneAPI`: property read by name, `none` for a property the
object literal does not define. Each method is given by the request it makes. -/
def airplaneAPI (property : String) : Option (Arg → ApiRequest) :=
  if property = "getFlights" then some (fun _ => apiGet "/flights")
  else if property = "checkIn" then some (fun passengerData => apiPost "/check-in" (.value passengerData))
  else if property = "getPassenger" then
    some (fun passengerId => apiGet ("/passenger/" ++ passengerId.render))
  else if property = "addFlightDetails" then
    some (fun flightData => apiPost "/flight-details" (.value flightData))
  else if property = "getBoardingQueue" then
    some (fun passengerId => apiGet ("/boarding-queue/" ++ passengerId.render))
  else if property = "getGateControl" then some (fun _ => apiGet "/gate-control")
  else if property = "boardPassenger" then
    some (fun passengerId => apiPost "/board-passenger" (.fields [("passengerId", passengerId)]))
  else if property = "getFlightStatus" then
    some (fun flightNumber => apiGet ("/flight-status/" ++ flightNumber.render))
  else none

/-- What the network and the response interceptor make of a request: the
promise resolves, or it rejects with an error message. -/
abbrev Transport := ApiRequest → Except String Unit

/-! ## `components/GateControl/GateControl.js` -/

/-- The data returned by the `gateControl` query: both properties may be absent. -/
structure GateControlData where
  queue : Option (List QueueEntry)
  passengers : Option PassengerMap
  deriving DecidableEq, Repr

/-- The part of the `useQuery` result that `GateControl` reads. -/
structure QueryResult where
  data : Option GateControlData
  isLoading : Bool
  error : Option String
  deriving DecidableEq, Repr

/-- The `refetchInterval` of the `gateControl` query, in milliseconds. -/
def refetchInterval : Nat := 30000

/-- The queue shown:
`boardingQueue.length > 0 ? boardingQueue : queueData?.queue || []`. -/
def GateControl.queue (boardingQueue : List QueueEntry) (queueData : Option GateControlData) :
    List QueueEntry :=
  if boardingQueue.length > 0 then boardingQueue
  else jsOr (queueData.bind (fun d => d.queue)) []

/-- The passengers object shown:
`Object.keys(passengers).length > 0 ? passengers : queueData?.passengers || {}`. -/
def GateControl.allPassengers (passengers : PassengerMap) (queueData : Option GateControlData) :
    PassengerMap :=
  if (objectKeys passengers).length > 0 then passengers
  else jsOr (queueData.bind (fun d => d.passengers)) []

/-- `Array.prototype.map` with a callback taking the element and its index,
started at index `i`. -/
def mapIdxFrom {α β : Type} (f : α → Nat → β) : Nat → List α → List β
  | _, [] => []
  | i, x :: xs => f x i :: mapIdxFrom f (i + 1) xs

/-- `xs.map((x, index) => f(x, index))`. -/
def jsMap {α β : Type} (f : α → Nat → β) (xs : List α) : List β :=
  mapIdxFrom f 0 xs

/-- One rendered queue row. -/
structure Row where
  key : Nat
  position : Nat
  name : String
  flightNumber : String
  boardingClass : String
  boardingPass : String
  specialNeeds : Option String
  priority : Nat
  timeSlot : String
  boardButtonArg : Nat
  deriving DecidableEq, Repr

/-- The callback of `queue.map(([priority, timeSlot, passengerId], index) => ...)`. -/
def GateControl.renderRow (allPassengers : PassengerMap) (entry : QueueEntry) (index : Nat) : Row :=
  match entry with
  | (priority, timeSlot, passengerId) =>
    let passenger := getProp allPassengers passengerId
    { key := passengerId
      position := index + 1
      name := jsOrStr (passenger.bind (fun p => p.name)) ("Passenger " ++ toString passengerId)
      flightNumber := jsOrStr (passenger.bind (fun p => p.flightNumber)) "Unknown"
      boardingClass := jsOrStr (passenger.bind (fun p => p.boardingClass)) "Economy"
      boardingPass := jsOrStr (passenger.bind (fun p => p.boardingPass)) "N/A"
      specialNeeds := (passenger.bind (fun p => p.specialNeeds)).bind
        (fun t => if t = "" then none else some t)
      priority := priority
      timeSlot := timeSlot
      boardButtonArg := passengerId }

/-- The real-time status card. -/
structure StatusCard where
  color : String
  icon : String
  label : String
  deriving DecidableEq, Repr

/-- The status card of `GateControl` for a value of `isConnected`. -/
def GateControl.statusCard (isConnected : Bool) : StatusCard :=
  { color := if isConnected then "text-green-600" else "text-red-600"
    icon := if isConnected then "FaCheckCircle" else "FaTimesCircle"
    label := if isConnected then "Connected" else "Disconnected" }

/-- What `GateControl` returns. -/
inductive View where
  | loading (message : String)
  | error (message : String)
  | dashboard (count : Nat) (status : StatusCard) (emptyNotice : Bool) (rows : List Row)
  deriving DecidableEq, Repr

/-- The component body of `GateControl`. -/
def GateControl.render (s : ProviderState) (q : QueryResult) : View :=
  if q.isLoading then .loading "Loading gate control dashboard..."
  else
    match q.error with
    | some message => .error ("Error loading gate control: " ++ message)
    | none =>
      let queue := GateControl.queue s.boardingQueue q.data
      let allPassengers := GateControl.allPassengers s.passengers q.data
      .dashboard queue.length (GateControl.statusCard s.isConnected)
        (queue.length == 0)
        (if queue.length == 0 then [] else jsMap (GateControl.renderRow allPassengers) queue)

/-- The `onSuccess` callback of `closePatientMutation`. -/
def GateControl.onSuccess : List Effect :=
  [.toastSuccess "Passenger processed successfully!", .invalidateQueries "gateControl"]

/-- The `onError` callback of `closePatientMutation`. -/
def GateControl.onError (message : String) : List Effect :=
  [.toastError (jsOrStr (some message) "Failed to process passenger")]

/-- The mutation function `(passengerId) => airplaneAPI.closePassenger(passengerId)`:
the request it makes, or the message of the `TypeError` thrown when the
property read is `undefined` and the call cannot be made. -/
def GateControl.mutationFn (passengerId : Nat) : Except String ApiRequest :=
  match airplaneAPI "closePassenger" with
  | some method => .ok (method (.scalar (.num passengerId)))
  | none => .error "airplaneAPI.closePassenger is not a function"

/-- `closePatientMutation.mutate(passengerId)`: the mutation function runs, then
`onSuccess` when its promise resolves and `onError` when it rejects or throws. -/
def GateControl.mutate (transport : Transport) (passengerId : Nat) : List Effect :=
  match GateControl.mutationFn passengerId with
  | .error message => GateControl.onError message
  | .ok req =>
    .httpRequest req ::
      (match transport req with
       | .ok _ => GateControl.onSuccess
       | .error message => GateControl.onError message)

/-- `handleClosePassenger(passengerId)`, the `onClick` of a row's Board button. -/
def GateControl.handleClosePassenger (transport : Transport) (passengerId : Nat) : List Effect :=
  GateControl.mutate transport passengerId

/-- Pressing the Board button of a rendered row. -/
def Row.clickBoard (transport : Transport) (r : Row) : List Effect :=
  GateControl.handleClosePassenger transport r.boardButtonArg

/-! ## `components/Common/ConnectionStatus.js` -/

/-- What `ConnectionStatus` renders. -/
structure Badge where
  className : String
  icon : String
  label : String
  deriving DecidableEq, Repr

/-- The component `ConnectionStatus`, a function of its prop `isConnected`. -/
def ConnectionStatus (isConnected : Bool) : Badge :=
  { className :=
      if isConnected then "bg-green-100 text-green-800 border border-green-200"
      else "bg-red-100 text-red-800 border border-red-200"
    icon := if isConnected then "FaWifi" else "FaExclamationTriangle"
    label := if isConnected then "Connected" else "Connection Lost" }

/-- The context value of `SocketProvider`, as far as it is data: the four state cells. -/
def contextValue (s : ProviderState) : Option SocketHandle × Bool × List QueueEntry × PassengerMap :=
  (s.socket, s.isConnected, s.boardingQueue, s.passengers)

/-! ## `services/api.js`: the response interceptor -/

/-- The value of `error.response.data`: no value (`null` or `undefined`), a
body that is not an object (axios gives the empty string for an empty body),
or an object with its `error` property, if it has one. -/
inductive ResponseData where
  | null
  | text (s : String)
  | object (error : Option String)
  deriving DecidableEq, Repr

/-- The value of `error.response`. -/
structure ErrorResponse where
  status : Nat
  data : ResponseData
  deriving DecidableEq, Repr

/-- The error passed to the rejection handler of the response interceptor. -/
structure AxiosError where
  response : Option ErrorResponse
  request : Bool
  message : Option String
  deriving DecidableEq, Repr

/-- What a `throw` carries: `new Error(message)`, or the `TypeError` the engine
raises when `property` is read from `null` or `undefined`. -/
inductive Thrown where
  | error (message : String)
  | typeError (property : String)
  deriving DecidableEq, Repr

/-- The property read `data.error`. -/
def ResponseData.readError : ResponseData → Except Thrown (Option String)
  | .null => .error (.typeError "error")
  | .text _ => .ok none
  | .object error => .ok error

/-- The rejection handler `(error) => ...` of `api.interceptors.response.use`:
`.ok` would be a returned value, `.error` is a throw. -/
def responseErrorHandler (error : AxiosError) : Except Thrown Unit :=
  match error.response with
  | some response =>
    match response.data.readError with
    | .error thrown => .error thrown
    | .ok dataError =>
      match response.status with
      | 404 => .error (.error (jsOrStr dataError "Resource not found"))
      | 400 => .error (.error (jsOrStr dataError "Bad request"))
      | 500 => .error (.error (jsOrStr dataError "Internal server error"))
      | status => .error (.error (jsOrStr dataError ("HTTP " ++ toString status ++ " error")))
  | none =>
    if error.request then
      .error (.error "Network error - please check your connection")
    else
      .error (.error (jsOrStr error.message "An unexpected error occurred"))

/-- The default message of the interceptor for a status, as the claim lists them. -/
def statusDefault (status : Nat) : String :=
  if status = 404 then "Resource not found"
  else if status = 400 then "Bad request"
  else if status = 500 then "Internal server error"
  else "HTTP " ++ toString status ++ " error"

/-! ## The boarding core behind the API

The server that owns the queue (`QueueStore`, `AdmissionController`) is not
among the sources, which hold its callers only (`airplaneAPI.boardPassenger`,
`airplaneAPI.getGateControl`). It is modelled from sections 3, 4.1, 4.2 and 7
of the specification. -/

/-- Modelled from the spec: the `boardingState` of a passenger (section 3); the
server code that holds it is missing from the sources. -/
inductive BoardingState where
  | Queued
  | Boarded
  deriving DecidableEq, Repr

/-- Modelled from the spec: the `BoardOutcome` of `board` (section 4.2); the
server code is missing from the sources. -/
inductive BoardOutcome where
  | Boarded
  | AlreadyBoarded
  deriving DecidableEq, Repr

/-- Modelled from the spec: the error taxonomy of the mutation path (section 7);
the server code is missing from the sources. -/
inductive CoreError where
  | DuplicatePassenger
  | Inconsistent
  | NotFound
  deriving DecidableEq, Repr

/-- Modelled from the spec: the state behind the serialization point, the
ordered entries of `QueueStore` and the `boardingState` of every known
passenger; the server code is missing from the sources. -/
structure Core where
  queue : List QueueEntry
  boardingState : List (Nat × BoardingState)
  deriving DecidableEq, Repr

/-- Modelled from the spec: the store before any enqueue; the server code is
missing from the sources. -/
def Core.empty : Core :=
  { queue := [], boardingState := [] }

/-- Modelled from the spec: comparison of two time slots, "a comparable token",
taken as text compared character by character; the server code is missing from
the sources. -/
def charsLe : List Char → List Char → Bool
  | [], _ => true
  | _ :: _, [] => false
  | a :: as, b :: bs => decide (a.toNat < b.toNat) || (decide (a.toNat = b.toNat) && charsLe as bs)

/-- Modelled from the spec: the order `(priorityTier ascending, timeSlot
ascending)` of section 3, as "entry `a` may stand before entry `b`"; the server
code is missing from the sources. -/
def keyLe (a b : QueueEntry) : Bool :=
  decide (a.1 < b.1) || (decide (a.1 = b.1) && charsLe a.2.1.data b.2.1.data)

/-- Modelled from the spec: insertion that maintains the sort invariant, the new
entry going behind every entry that may stand before it, so that ties keep
insertion order (section 3); the server code is missing from the sources. -/
def QueueStore.insert (entry : QueueEntry) : List QueueEntry → List QueueEntry
  | [] => [entry]
  | x :: xs => if keyLe x entry then x :: QueueStore.insert entry xs else entry :: x :: xs

/-- Modelled from the spec: `enqueue(entry)` of section 4.1, which "fails with
`DuplicatePassenger` if `passengerId` already present (queued or boarded);
otherwise inserts maintaining the sort invariant"; the server code is missing
from the sources. -/
def QueueStore.enqueue (c : Core) (entry : QueueEntry) : Except CoreError Core :=
  match c.boardingState.lookup entry.2.2 with
  | some _ => .error .DuplicatePassenger
  | none =>
    .ok { queue := QueueStore.insert entry c.queue
          boardingState := (entry.2.2, .Queued) :: c.boardingState }

/-- Modelled from the spec: `remove(passengerId)` of section 4.1, which "removes
and returns the entry if present; returns an explicit absent result if not
present"; the server code is missing from the sources. -/
def QueueStore.remove (queue : List QueueEntry) (passengerId : Nat) :
    Option QueueEntry × List QueueEntry :=
  match queue with
  | [] => (none, [])
  | x :: xs =>
    if x.2.2 = passengerId then (some x, xs)
    else ((QueueStore.remove xs passengerId).1, x :: (QueueStore.remove xs passengerId).2)

/-- Modelled from the spec: `snapshot()` of section 4.1, a copy of the current
ordered sequence; the server code is missing from the sources. -/
def QueueStore.snapshot (c : Core) : List QueueEntry :=
  c.queue

/-- Modelled from the spec: the write `boardingState = Boarded` for one
passenger; the server code is missing from the sources. -/
def setBoarded (passengerId : Nat) : List (Nat × BoardingState) → List (Nat × BoardingState)
  | [] => []
  | (k, v) :: rest =>
    if k = passengerId then (k, .Boarded) :: setBoarded passengerId rest
    else (k, v) :: setBoarded passengerId rest

/-- Modelled from the spec: `board(passengerId)` of section 4.2: look up the
`boardingState`; if `Boarded`, return `AlreadyBoarded` without touching the
store; else remove the entry, which is `Inconsistent` when it is absent; set
`boardingState = Boarded`; return `Boarded`. An unknown passengerId is
`NotFound` (section 7). The server code is missing from the sources. -/
def AdmissionController.board (c : Core) (passengerId : Nat) :
    Except CoreError BoardOutcome × Core :=
  match c.boardingState.lookup passengerId with
  | none => (.error .NotFound, c)
  | some .Boarded => (.ok .AlreadyBoarded, c)
  | some .Queued =>
    match QueueStore.remove c.queue passengerId with
    | (none, _) => (.error .Inconsistent, c)
    | (some _, rest) =>
      (.ok .Boarded, { queue := rest, boardingState := setBoarded passengerId c.boardingState })

/-- Modelled from the spec: `board(passengerId)` called `n` times in a row, with
the outcomes in call order; the server code is missing from the sources. -/
def boardRepeat (c : Core) (passengerId : Nat) :
    Nat → List (Except CoreError BoardOutcome) × Core
  | 0 => ([], c)
  | n + 1 =>
    ((AdmissionController.board c passengerId).1 ::
        (boardRepeat (AdmissionController.board c passengerId).2 passengerId n).1,
     (boardRepeat (AdmissionController.board c passengerId).2 passengerId n).2)

/-- Modelled from the spec: a sequence of `enqueue` calls, a failed call leaving
the store as it was; the server code is missing from the sources. -/
def enqueueAll (c : Core) : List QueueEntry → Core
  | [] => c
  | entry :: rest =>
    match QueueStore.enqueue c entry with
    | .ok c1 => enqueueAll c1 rest
    | .error _ => enqueueAll c rest

/-! ## `App.js`: the route table, and how `Routes` picks a route

`Routes` comes from react-router-dom (version 6), which is a dependency and not
part of the sources; its matching is modelled as documented: a route path is
compiled into segments, matching ignores letter case and trailing slashes, a
`:name` segment takes one non-empty path segment, `*` takes the rest, and among
the matching routes the one with the highest score is rendered. -/

/-- The page components named in the `element` props of `App`. -/
inductive Page where
  | CheckIn
  | FlightDetails
  | BoardingQueue
  | FlightDashboard
  | NotFound
  deriving DecidableEq, Repr

/-- One `Route` of `App`: its `path` and its `element`. -/
structure Route where
  path : String
  element : Page
  deriving DecidableEq, Repr

/-- The `Routes` of `App`, in source order. -/
def appRoutes : List Route :=
  [ { path := "/", element := .CheckIn },
    { path := "/flight/:passengerId", element := .FlightDetails },
    { path := "/boarding/:passengerId", element := .BoardingQueue },
    { path := "/flights", element := .FlightDashboard },
    { path := "*", element := .NotFound } ]

/-- Puts a character in front of the first piece of a split. -/
def consHead (c : Char) : List (List Char) → List (List Char)
  | [] => [[c]]
  | seg :: rest => (c :: seg) :: rest

/-- The pieces of `s.split('/')`. -/
def splitOnSlash : List Char → List (List Char)
  | [] => [[]]
  | c :: cs => if c = '/' then [] :: splitOnSlash cs else consHead c (splitOnSlash cs)

/-- Removes the empty pieces at the end, which trailing slashes leave. -/
def dropTrailingEmpty : List (List Char) → List (List Char)
  | [] => []
  | seg :: rest =>
    if seg = [] ∧ dropTrailingEmpty rest = [] then [] else seg :: dropTrailingEmpty rest

/-- The segments of a location pathname: the pieces after the leading slash,
without trailing empty pieces; `none` when the pathname has no leading slash. -/
def pathSegments (pathname : String) : Option (List (List Char)) :=
  match splitOnSlash pathname.data with
  | [] :: segs => some (dropTrailingEmpty segs)
  | _ => none

/-- A segment of a compiled route path. -/
inductive PatternSegment where
  | static (text : List Char)
  | param (name : List Char)
  | splat
  deriving DecidableEq, Repr

/-- Compiles one segment of a route path. -/
def compileSegment (seg : List Char) : PatternSegment :=
  match seg with
  | ['*'] => .splat
  | ':' :: name => .param name
  | text => .static text

/-- Compiles a route path: its non-empty pieces between slashes. -/
def compilePath (path : String) : List PatternSegment :=
  ((splitOnSlash path.data).filter (fun seg => !seg.isEmpty)).map compileSegment

/-- The rank of a compiled route path: one point per piece of the joined path
(the leading empty piece included), one for that empty piece, ten for a static
segment, three for a parameter and a penalty of two for a splat. -/
def routeScore (pattern : List PatternSegment) : Int :=
  (pattern.foldl
    (fun score seg =>
      match seg with
      | .static _ => score + 11
      | .param _ => score + 4
      | .splat => score - 1)
    (if pattern.isEmpty then 4 else 2))

/-- Lower case of a segment, for the case-insensitive comparison. -/
def lower (cs : List Char) : List Char :=
  cs.map Char.toLower

/-- Matches compiled segments against path segments and collects the parameters. -/
def matchSegments : List PatternSegment → List (List Char) → Option (List (String × String))
  | [], [] => some []
  | [], _ :: _ => none
  | .splat :: _, segs => some [("*", String.mk (List.intercalate ['/'] segs))]
  | .static _ :: _, [] => none
  | .param _ :: _, [] => none
  | .static text :: ps, seg :: segs =>
    if lower text = lower seg then matchSegments ps segs else none
  | .param name :: ps, seg :: segs =>
    if seg = [] then none
    else (matchSegments ps segs).map (fun params => (String.mk name, String.mk seg) :: params)

/-- A route that matched: the element rendered, what `useParams()` returns, and the rank. -/
structure RouteMatch where
  element : Page
  params : List (String × String)
  score : Int
  deriving DecidableEq, Repr

/-- One route tried against the segments of the location. -/
def matchRoute (route : Route) (segs : List (List Char)) : Option RouteMatch :=
  (matchSegments (compilePath route.path) segs).map
    (fun params =>
      { element := route.element, params := params, score := routeScore (compilePath route.path) })

/-- The better of the best match so far and the next route, the earlier route
winning a tie. -/
def betterMatch (segs : List (List Char)) (best : Option RouteMatch) (route : Route) :
    Option RouteMatch :=
  match matchRoute route segs with
  | none => best
  | some m =>
    match best with
    | none => some m
    | some b => if b.score < m.score then some m else some b

/-- The route `Routes` renders for a location pathname. -/
def matchRoutes (routes : List Route) (pathname : String) : Option RouteMatch :=
  match pathSegments pathname with
  | none => none
  | some segs => routes.foldl (betterMatch segs) none

/-! ## Navigation targets -/

/-- The path `CheckIn.handleSubmit` navigates to after a successful check-in:
the template literal with `result.passengerId`. -/
def CheckIn.navigateTarget (passengerId : Scalar) : String :=
  "/flight-details/" ++ passengerId.render

/-- The path `FlightDetails.handleSubmit` navigates to after a successful save:
the template literal with the route parameter `passengerId`. -/
def FlightDetails.navigateTarget (passengerId : String) : String :=
  "/boarding-queue/" ++ passengerId

/-! ## `components/CheckIn/CheckIn.js` -/

/-- The characters `String.prototype.trim` strips and `\s` matches: white space
and line terminators. -/
def isJsWhitespace (c : Char) : Bool :=
  c.toNat = 0x09 || c.toNat = 0x0A || c.toNat = 0x0B || c.toNat = 0x0C || c.toNat = 0x0D ||
  c.toNat = 0x20 || c.toNat = 0xA0 || c.toNat = 0x1680 ||
  (0x2000 ≤ c.toNat && c.toNat ≤ 0x200A) ||
  c.toNat = 0x2028 || c.toNat = 0x2029 || c.toNat = 0x202F || c.toNat = 0x205F ||
  c.toNat = 0x3000 || c.toNat = 0xFEFF

/-- `s.trim()` on the characters of a string. -/
def jsTrim (cs : List Char) : List Char :=
  ((cs.dropWhile isJsWhitespace).reverse.dropWhile isJsWhitespace).reverse

/-- `s.length`: the number of UTF-16 code units. -/
def utf16Length : List Char → Nat
  | [] => 0
  | c :: cs => (if c.toNat < 0x10000 then 1 else 2) + utf16Length cs

/-- The class `\d`: the ten ASCII digits. -/
def isAsciiDigit (c : Char) : Bool :=
  0x30 ≤ c.toNat && c.toNat ≤ 0x39

/-- The value of a character as a digit of the given radix (10 or 16), if it is one. -/
def digitValue (radix : Nat) (c : Char) : Option Nat :=
  if isAsciiDigit c then some (c.toNat - 0x30)
  else if radix = 16 && (0x61 ≤ c.toNat && c.toNat ≤ 0x66) then some (c.toNat - 0x61 + 10)
  else if radix = 16 && (0x41 ≤ c.toNat && c.toNat ≤ 0x46) then some (c.toNat - 0x41 + 10)
  else none

/-- The longest prefix of digits of the radix, as their values. -/
def takeDigits (radix : Nat) : List Char → List Nat
  | [] => []
  | c :: cs =>
    match digitValue radix c with
    | some d => d :: takeDigits radix cs
    | none => []

/-- The number a list of digit values denotes in the radix. -/
def digitsValue (radix : Nat) (ds : List Nat) : Nat :=
  ds.foldl (fun acc d => acc * radix + d) 0

/-- `parseInt(s)` without a radix argument, on text after leading white space
and sign are taken off: a `0x` or `0X` prefix selects radix 16, the longest
prefix of digits is read, and there is no number (`NaN`) when it is empty. -/
def parseUnsigned (cs : List Char) : Option Nat :=
  match cs with
  | '0' :: 'x' :: rest =>
    if takeDigits 16 rest = [] then none else some (digitsValue 16 (takeDigits 16 rest))
  | '0' :: 'X' :: rest =>
    if takeDigits 16 rest = [] then none else some (digitsValue 16 (takeDigits 16 rest))
  | _ => if takeDigits 10 cs = [] then none else some (digitsValue 10 (takeDigits 10 cs))

/-- `parseInt(value)`: `none` stands for `NaN`. -/
def parseInt (value : String) : Option Int :=
  match value.data.dropWhile isJsWhitespace with
  | '-' :: rest => (parseUnsigned rest).map (fun n => - (n : Int))
  | '+' :: rest => (parseUnsigned rest).map (fun n => (n : Int))
  | rest => (parseUnsigned rest).map (fun n => (n : Int))

/-- `a < b` where `a` may be `NaN`. -/
def numLt (a : Option Int) (b : Int) : Bool :=
  match a with
  | some x => decide (x < b)
  | none => false

/-- `a > b` where `a` may be `NaN`. -/
def numGt (a : Option Int) (b : Int) : Bool :=
  match a with
  | some x => decide (x > b)
  | none => false

/-- `value.replace(/[\s\-\(\)]/g, '')`: white space, hyphens and parentheses removed. -/
def stripPhonePunctuation (cs : List Char) : List Char :=
  cs.filter (fun c => !(isJsWhitespace c || c = '-' || c = '(' || c = ')'))

/-- The class `[\d\s-()]`. -/
def inPhoneClass (c : Char) : Bool :=
  isAsciiDigit c || isJsWhitespace c || c = '-' || c = '(' || c = ')'

/-- The part `[\d\s-()]{10,}$` of the pattern: ten or more characters of the
class up to the end. -/
def phoneBody (cs : List Char) : Bool :=
  decide (10 ≤ cs.length) && cs.all inPhoneClass

/-- `/^\+?[\d\s-()]{10,}$/.test(s)`: the optional plus sign is taken or not. -/
def phoneRegexTest (cs : List Char) : Bool :=
  (match cs with
   | '+' :: rest => phoneBody rest
   | _ => false) || phoneBody cs

/-- `validateField(name, value)`: the error message, empty when there is none. -/
def validateField (name value : String) : String :=
  if name = "name" then
    if jsTrim value.data = [] then "Name is required"
    else if utf16Length (jsTrim value.data) < 2 then "Name must be at least 2 characters"
    else ""
  else if name = "age" then
    if value = "" then "Age is required"
    else if numLt (parseInt value) 1 || numGt (parseInt value) 120 then
      "Please enter a valid age (1-120)"
    else ""
  else if name = "contact" then
    if jsTrim value.data = [] then "Contact number is required"
    else if !phoneRegexTest (stripPhonePunctuation value.data) then
      "Please enter a valid phone number"
    else ""
  else if name = "flightNumber" then
    if value = "" then "Please select a flight" else ""
  else ""

/-- The state cell `formData` of `CheckIn`. -/
structure CheckInForm where
  name : String
  age : String
  contact : String
  seatPreference : String
  flightNumber : String
  deriving DecidableEq, Repr

/-- `Object.keys(formData)`, in the order of the initial object literal. -/
def CheckInForm.keys : List String :=
  ["name", "age", "contact", "seatPreference", "flightNumber"]

/-- The property read `formData[key]` for a key of the form. -/
def CheckInForm.get (formData : CheckInForm) (key : String) : String :=
  if key = "name" then formData.name
  else if key = "age" then formData.age
  else if key = "contact" then formData.contact
  else if key = "seatPreference" then formData.seatPreference
  else if key = "flightNumber" then formData.flightNumber
  else ""

/-- The form as the object sent to the server. -/
def CheckInForm.toRecord (formData : CheckInForm) : Record :=
  [("name", .str formData.name), ("age", .str formData.age), ("contact", .str formData.contact),
   ("seatPreference", .str formData.seatPreference), ("flightNumber", .str formData.flightNumber)]

/-- `validateForm()`: the object passed to `setErrors`, and the value returned. -/
def validateForm (formData : CheckInForm) : List (String × String) × Bool :=
  let newErrors := CheckInForm.keys.foldl
    (fun (newErrors : List (String × String)) key =>
      let error := validateField key (formData.get key)
      if error ≠ "" then newErrors ++ [(key, error)] else newErrors)
    []
  (newErrors, newErrors.length == 0)

/-- The fields of the check-in response that `handleSubmit` reads. -/
structure CheckInResult where
  success : Bool
  boardingPass : String
  passengerId : Scalar
  deriving DecidableEq, Repr

/-- What one run of `handleSubmit` leaves: the `errors` state, the effects in
program order, the path passed to `navigate` (after the timeout), if any, and
the final `isSubmitting`. -/
structure SubmitOutcome where
  errors : List (String × String)
  effects : List Effect
  navigateTo : Option String
  isSubmitting : Bool
  deriving DecidableEq, Repr

/-- `handleSubmit` of `CheckIn`; `server` is what the awaited request resolves
to or rejects with. -/
def CheckIn.handleSubmit (server : ApiRequest → Except String CheckInResult)
    (formData : CheckInForm) : SubmitOutcome :=
  if !(validateForm formData).2 then
    { errors := (validateForm formData).1
      effects := [.toastError "Please correct the errors in the form"]
      navigateTo := none
      isSubmitting := false }
  else
    match airplaneAPI "checkIn" with
    | none =>
      { errors := (validateForm formData).1
        effects := [.consoleError "Check-in error:",
                    .toastError "airplaneAPI.checkIn is not a function"]
        navigateTo := none
        isSubmitting := false }
    | some method =>
      match server (method (.record formData.toRecord)) with
      | .ok result =>
        if result.success then
          { errors := (validateForm formData).1
            effects := [.httpRequest (method (.record formData.toRecord)),
                        .toastSuccess ("Check-in successful! Boarding pass: " ++ result.boardingPass)]
            navigateTo := some (CheckIn.navigateTarget result.passengerId)
            isSubmitting := false }
        else
          { errors := (validateForm formData).1
            effects := [.httpRequest (method (.record formData.toRecord))]
            navigateTo := none
            isSubmitting := false }
      | .error message =>
        { errors := (validateForm formData).1
          effects := [.httpRequest (method (.record formData.toRecord)),
                      .consoleError "Check-in error:",
                      .toastError (jsOrStr (some message) "Check-in failed. Please try again.")]
          navigateTo := none
          isSubmitting := false }

/-! ## `components/FlightDetails/FlightDetails.js`: the special-assistance buttons -/

/-- The state cell `formData` of `FlightDetails`. -/
structure FlightDetailsForm where
  boardingClass : String
  specialNeeds : String
  deriving DecidableEq, Repr

/-- The initial `formData` of `FlightDetails`. -/
def FlightDetails.initialForm : FlightDetailsForm :=
  { boardingClass := "economy", specialNeeds := "" }

/-- The `value` of the four special-assistance buttons, in source order. -/
def FlightDetails.needValues : List String :=
  ["wheelchair", "dietary", "infant", "medical"]

/-- The pieces of `s.split(',')`, each as its list of characters. -/
def splitOnComma : List Char → List (List Char)
  | [] => [[]]
  | c :: cs => if c = ',' then [] :: splitOnComma cs else consHead c (splitOnComma cs)

/-- The characters of `xs.join(',')`. -/
def joinComma : List (List Char) → List Char
  | [] => []
  | [x] => x
  | x :: y :: rest => x ++ ',' :: joinComma (y :: rest)

/-- `specialNeeds.split(',').filter(n => n.trim())`: the pieces whose trimmed
text is not empty. -/
def FlightDetails.currentNeeds (specialNeeds : String) : List (List Char) :=
  (splitOnComma specialNeeds.data).filter (fun n => decide (jsTrim n ≠ []))

/-- The `onClick` of the button of a need: the next `formData`. -/
def FlightDetails.onClickNeed (formData : FlightDetailsForm) (needValue : String) :
    FlightDetailsForm :=
  let currentNeeds := FlightDetails.currentNeeds formData.specialNeeds
  let hasNeed := decide (needValue.data ∈ currentNeeds)
  if hasNeed then
    let updatedNeeds := currentNeeds.filter (fun n => decide (n ≠ needValue.data))
    { formData with specialNeeds := String.mk (joinComma updatedNeeds) }
  else
    let updatedNeeds := currentNeeds ++ [needValue.data]
    { formData with specialNeeds := String.mk (joinComma updatedNeeds) }

/-! ## Concrete data used in the examples below -/

/-- Passenger 101 of the examples. -/
def passenger101 : Passenger :=
  { name := some "Asha Rao", flightNumber := some "AI101", boardingClass := some "Economy",
    boardingPass := some "BP101", specialNeeds := none }

/-- Passenger 103 of the examples. -/
def passenger103 : Passenger :=
  { name := some "Ben Okoye", flightNumber := some "AI101", boardingClass := some "Business",
    boardingPass := some "BP103", specialNeeds := some "wheelchair" }

/-- A mounted provider that is connected and holds a pushed queue with passenger 103. -/
def liveState103 : ProviderState :=
  { socket := some { url := "http://localhost:5000" }, isConnected := true,
    boardingQueue := [(1, "07:55", 103)], passengers := [(103, passenger103)] }

/-- A mounted provider that is disconnected and still holds the pushed queue with passenger 103. -/
def degradedState103 : ProviderState :=
  { liveState103 with isConnected := false }

/-- The push payload that lists passenger 103 only. -/
def push103 : BoardingUpdate :=
  { queue := some [(1, "07:55", 103)], passengers := some [(103, passenger103)] }

/-- A complete snapshot of an empty queue, as a push payload. -/
def emptyPush : BoardingUpdate :=
  { queue := some [], passengers := some [] }

/-- Polled data that lists passenger 101 only. -/
def poll101 : GateControlData :=
  { queue := some [(1, "08:00", 101)], passengers := some [(101, passenger101)] }

/-- A push sent once everybody has boarded: the queue is empty and the
passengers object still lists passenger 103. -/
def allBoardedPush : BoardingUpdate :=
  { queue := some [], passengers := some [(103, passenger103)] }

/-- Modelled from the spec: the store of the example in section 8, after the
three enqueues; the server code is missing from the sources. -/
def exampleCore : Core :=
  enqueueAll Core.empty [(1, "07:55", 103), (2, "08:05", 102), (1, "08:00", 101)]

/-- A check-in form that passes validation. -/
def validForm : CheckInForm :=
  { name := "Asha Rao", age := "34", contact := "+91 98765 43210", seatPreference := "window",
    flightNumber := "AI101" }

/-- A check-in form whose age was left empty. -/
def blankAgeForm : CheckInForm :=
  { validForm with age := "" }

/-- A server that accepts every check-in and assigns passengerId 7. -/
def acceptingServer : ApiRequest → Except String CheckInResult :=
  fun _ => .ok { success := true, boardingPass := "BP007", passengerId := .num 7 }

/-! ## Lemmas on the handlers -/

theorem handleEvent_no_fetch (s : ProviderState) (e : SocketEvent) :
    (handleEvent s e).2.filter Effect.isFetch = [] := by
  cases e <;> rfl

theorem handleEvent_no_emit (s : ProviderState) (e : SocketEvent) :
    (handleEvent s e).2.filter Effect.isEmit = [] := by
  cases e <;> rfl

theorem runEvents_no_fetch (es : List SocketEvent) (s : ProviderState) :
    (runEvents s es).2.filter Effect.isFetch = [] := by
  induction es generalizing s with
  | nil => rfl
  | cons e es ih =>
    simp only [runEvents, List.filter_append, handleEvent_no_fetch, ih, List.append_nil]

theorem runEvents_no_emit (es : List SocketEvent) (s : ProviderState) :
    (runEvents s es).2.filter Effect.isEmit = [] := by
  induction es generalizing s with
  | nil => rfl
  | cons e es ih =>
    simp only [runEvents, List.filter_append, handleEvent_no_emit, ih, List.append_nil]

theorem queue_of_nonempty (bq : List QueueEntry) (d : Option GateControlData) (h : bq ≠ []) :
    GateControl.queue bq d = bq := by
  unfold GateControl.queue
  rw [if_pos (List.length_pos.mpr h)]

theorem queue_of_empty (d : Option GateControlData) :
    GateControl.queue [] d = jsOr (d.bind (fun x => x.queue)) [] := by
  simp [GateControl.queue]

theorem allPassengers_of_nonempty (ps : PassengerMap) (d : Option GateControlData) (h : ps ≠ []) :
    GateControl.allPassengers ps d = ps := by
  unfold GateControl.allPassengers objectKeys
  rw [if_pos (by simpa [List.length_pos] using h)]

theorem allPassengers_of_empty (d : Option GateControlData) :
    GateControl.allPassengers [] d = jsOr (d.bind (fun x => x.passengers)) [] := by
  simp [GateControl.allPassengers, objectKeys]

/-! ## Snapshot application (C1) -/

/-- C1: after the `boarding_update` handler runs on payload `d`, `boardingQueue`
is `d.queue` (the empty list when absent) and `passengers` is `d.passengers`
(the empty object when absent), whatever the prior state was; so applying `d1`
and then `d` leaves the state that applying `d` alone leaves, and
`isConnected` is unchanged. -/
theorem boarding_update_overwrites (s t : ProviderState) (d d1 : BoardingUpdate) :
    (handleEvent s (.boarding_update d)).1.boardingQueue = d.queue.getD [] ∧
    (handleEvent s (.boarding_update d)).1.passengers = d.passengers.getD [] ∧
    (handleEvent s (.boarding_update d)).1.boardingQueue
      = (handleEvent t (.boarding_update d)).1.boardingQueue ∧
    (handleEvent s (.boarding_update d)).1.passengers
      = (handleEvent t (.boarding_update d)).1.passengers ∧
    (runEvents s [.boarding_update d1, .boarding_update d]).1
      = (runEvents s [.boarding_update d]).1 ∧
    (handleEvent s (.boarding_update d)).1.isConnected = s.isConnected ∧
    (runEvents s [.boarding_update d1, .boarding_update d]).1.isConnected = s.isConnected := by
  refine ⟨?_, ?_, ?_, ?_, ?_, ?_, ?_⟩
  · cases h : d.queue <;> simp [handleEvent, onBoardingUpdate, jsOr, h]
  · cases h : d.passengers <;> simp [handleEvent, onBoardingUpdate, jsOr, h]
  · rfl
  · rfl
  · rfl
  · rfl
  · rfl

/-! ## What the dashboard shows (C2, C3, C4) -/

/-- C2, counterexample: a connected provider that is pushed the complete
snapshot of an empty queue, while the last poll still lists passenger 101,
shows the polled queue and the polled passengers, not the pushed ones. -/
theorem live_empty_push_shows_poll :
    liveState103 = (runEvents (mount none initialState) [.connect, .boarding_update push103]).1 ∧
    (handleEvent liveState103 (.boarding_update emptyPush)).1.isConnected = true ∧
    jsOr emptyPush.queue [] = [] ∧
    jsOr emptyPush.passengers [] = [] ∧
    GateControl.queue (handleEvent liveState103 (.boarding_update emptyPush)).1.boardingQueue
      (some poll101) = [(1, "08:00", 101)] ∧
    GateControl.allPassengers (handleEvent liveState103 (.boarding_update emptyPush)).1.passengers
      (some poll101) = [(101, passenger101)] ∧
    GateControl.queue (handleEvent liveState103 (.boarding_update emptyPush)).1.boardingQueue
      (some poll101) ≠ jsOr emptyPush.queue [] ∧
    GateControl.allPassengers (handleEvent liveState103 (.boarding_update emptyPush)).1.passengers
      (some poll101) ≠ jsOr emptyPush.passengers [] := by
  decide

/-- C2, amended: in the Live state, after a pushed snapshot `S` is delivered the
queue shown is `S.queue` when it has at least one entry and otherwise the polled
queue (empty when there is none); the passengers shown are `S.passengers` when
it has at least one key and otherwise the polled passengers. -/
theorem live_push_displayed (s : ProviderState) (S : BoardingUpdate)
    (poll : Option GateControlData) (hlive : s.isConnected = true) :
    (handleEvent s (.boarding_update S)).1.isConnected = true ∧
    (jsOr S.queue [] ≠ [] →
      GateControl.queue (handleEvent s (.boarding_update S)).1.boardingQueue poll
        = jsOr S.queue []) ∧
    (jsOr S.queue [] = [] →
      GateControl.queue (handleEvent s (.boarding_update S)).1.boardingQueue poll
        = jsOr (poll.bind (fun d => d.queue)) []) ∧
    (jsOr S.passengers [] ≠ [] →
      GateControl.allPassengers (handleEvent s (.boarding_update S)).1.passengers poll
        = jsOr S.passengers []) ∧
    (jsOr S.passengers [] = [] →
      GateControl.allPassengers (handleEvent s (.boarding_update S)).1.passengers poll
        = jsOr (poll.bind (fun d => d.passengers)) []) := by
  refine ⟨hlive, ?_, ?_, ?_, ?_⟩
  · intro h
    exact queue_of_nonempty _ _ h
  · intro h
    show GateControl.queue (jsOr S.queue []) poll = _
    rw [h, queue_of_empty]
  · intro h
    exact allPassengers_of_nonempty _ _ h
  · intro h
    show GateControl.allPassengers (jsOr S.passengers []) poll = _
    rw [h, allPassengers_of_empty]

/-- Witness of `live_push_displayed`: a connected provider is pushed a snapshot
with passenger 101 while the poll is empty. -/
theorem live_push_displayed_witness :
    liveState103.isConnected = true ∧
    GateControl.queue
      (handleEvent liveState103
        (.boarding_update { queue := some [(1, "08:00", 101)],
                            passengers := some [(101, passenger101)] })).1.boardingQueue
      (some { queue := some [], passengers := none }) = [(1, "08:00", 101)] :=
  ⟨rfl, (live_push_displayed liveState103
      { queue := some [(1, "08:00", 101)], passengers := some [(101, passenger101)] }
      (some { queue := some [], passengers := none }) rfl).2.1 (by decide)⟩

/-- C3, counterexample: a disconnected provider that still holds a pushed queue
with passenger 103 shows that queue and its passengers, not the freshly polled
snapshot that lists passenger 101 only. -/
theorem degraded_poll_not_shown :
    degradedState103
      = (runEvents (mount none initialState)
          [.connect, .boarding_update push103, .disconnect "transport close"]).1 ∧
    degradedState103.isConnected = false ∧
    GateControl.queue degradedState103.boardingQueue (some poll101) = [(1, "07:55", 103)] ∧
    GateControl.allPassengers degradedState103.passengers (some poll101)
      = [(103, passenger103)] ∧
    GateControl.queue degradedState103.boardingQueue (some poll101) ≠ jsOr poll101.queue [] ∧
    GateControl.allPassengers degradedState103.passengers (some poll101)
      ≠ jsOr poll101.passengers [] := by
  decide

/-- C3, amended: in the Degraded state the queue shown is the fetched `F.queue`
when the pushed `boardingQueue` held by the provider is empty, and that pushed
queue otherwise; the passengers shown are `F.passengers` when the pushed
`passengers` has no key, and the pushed `passengers` otherwise. -/
theorem degraded_poll_displayed (s : ProviderState) (F : GateControlData)
    (hdeg : s.isConnected = false) :
    (s.boardingQueue = [] → GateControl.queue s.boardingQueue (some F) = jsOr F.queue []) ∧
    (s.boardingQueue ≠ [] → GateControl.queue s.boardingQueue (some F) = s.boardingQueue) ∧
    (s.passengers = [] →
      GateControl.allPassengers s.passengers (some F) = jsOr F.passengers []) ∧
    (s.passengers ≠ [] → GateControl.allPassengers s.passengers (some F) = s.passengers) := by
  have _ := hdeg
  refine ⟨?_, ?_, ?_, ?_⟩
  · intro h
    rw [h, queue_of_empty]
    rfl
  · intro h
    exact queue_of_nonempty _ _ h
  · intro h
    rw [h, allPassengers_of_empty]
    rfl
  · intro h
    exact allPassengers_of_nonempty _ _ h

/-- Witness of `degraded_poll_displayed`: a provider that never received a push
and lost its connection shows the fetched snapshot. -/
theorem degraded_poll_displayed_witness :
    (handleEvent (mount none initialState) (.connect_error "timeout")).1.isConnected = false ∧
    GateControl.queue (handleEvent (mount none initialState) (.connect_error "timeout")).1.boardingQueue
      (some poll101) = [(1, "08:00", 101)] :=
  ⟨rfl, (degraded_poll_displayed
      (handleEvent (mount none initialState) (.connect_error "timeout")).1 poll101 rfl).1 rfl⟩

/-- C4, counterexample: a provider that holds a pushed queue with passenger 103
loses its connection and reconnects; the fetch then returns the authoritative
snapshot that lists passenger 101 only, yet the dashboard still shows the
queue and passengers pushed before the outage. -/
theorem reconnect_shows_stale_push :
    liveState103 = (runEvents (mount none initialState) [.connect, .boarding_update push103]).1 ∧
    (runEvents liveState103 [.disconnect "transport close", .connect]).1.isConnected = true ∧
    GateControl.queue
      (runEvents liveState103 [.disconnect "transport close", .connect]).1.boardingQueue
      (some poll101) = [(1, "07:55", 103)] ∧
    GateControl.allPassengers
      (runEvents liveState103 [.disconnect "transport close", .connect]).1.passengers
      (some poll101) = [(103, passenger103)] ∧
    GateControl.queue
      (runEvents liveState103 [.disconnect "transport close", .connect]).1.boardingQueue
      (some poll101) ≠ jsOr poll101.queue [] ∧
    GateControl.allPassengers
      (runEvents liveState103 [.disconnect "transport close", .connect]).1.passengers
      (some poll101) ≠ jsOr poll101.passengers [] := by
  decide

/-- C4, amended: after a disconnect, a `connect` event and a successful fetch
that returns the authoritative snapshot `A`, the queue shown is `A.queue` when
the pushed `boardingQueue` held since before the outage is empty, and that
pushed queue otherwise; likewise the passengers shown are `A.passengers` when
the held pushed `passengers` has no key, and the held `passengers` otherwise. -/
theorem reconnect_fetch_displayed (s : ProviderState) (reason : String) (A : GateControlData) :
    (runEvents s [.disconnect reason, .connect]).1.isConnected = true ∧
    (s.boardingQueue = [] →
      GateControl.queue (runEvents s [.disconnect reason, .connect]).1.boardingQueue (some A)
        = jsOr A.queue []) ∧
    (s.boardingQueue ≠ [] →
      GateControl.queue (runEvents s [.disconnect reason, .connect]).1.boardingQueue (some A)
        = s.boardingQueue) ∧
    (s.passengers = [] →
      GateControl.allPassengers (runEvents s [.disconnect reason, .connect]).1.passengers (some A)
        = jsOr A.passengers []) ∧
    (s.passengers ≠ [] →
      GateControl.allPassengers (runEvents s [.disconnect reason, .connect]).1.passengers (some A)
        = s.passengers) := by
  refine ⟨rfl, ?_, ?_, ?_, ?_⟩
  · intro h
    show GateControl.queue s.boardingQueue (some A) = _
    rw [h, queue_of_empty]
    rfl
  · intro h
    exact queue_of_nonempty _ _ h
  · intro h
    show GateControl.allPassengers s.passengers (some A) = _
    rw [h, allPassengers_of_empty]
    rfl
  · intro h
    exact allPassengers_of_nonempty _ _ h

/-- Witness of `reconnect_fetch_displayed`: a mounted provider that never
received a push reconnects and shows the fetched snapshot. -/
theorem reconnect_fetch_displayed_witness :
    (mount none initialState).boardingQueue = [] ∧
    GateControl.queue
      (runEvents (mount none initialState) [.disconnect "ping timeout", .connect]).1.boardingQueue
      (some poll101) = [(1, "08:00", 101)] :=
  ⟨rfl, (reconnect_fetch_displayed (mount none initialState) "ping timeout" poll101).2.1 rfl⟩

/-! ## Fetch on reconnect (C5) -/

/-- C5, counterexample: the `connect` handler of a mounted provider performs a
console log and a success notice and no snapshot fetch at all, so the number of
fetches it issues is zero, not one. -/
theorem connect_issues_zero_fetches :
    (handleEvent (mount none initialState) .connect).2
      = [.consoleLog "Connected to server", .toastSuccess "Connected to real-time updates"] ∧
    ((handleEvent (mount none initialState) .connect).2.filter Effect.isFetch).length = 0 ∧
    ((handleEvent (mount none initialState) .connect).2.filter Effect.isFetch).length ≠ 1 := by
  decide

/-- C5, amended: a `connect` event handled by `SocketProvider` issues no snapshot
fetch; the handler sets `isConnected` to true, leaves `boardingQueue` and
`passengers` as they are and shows a notice, and no sequence of socket events
makes the provider pull `/gate-control` or invalidate the `gateControl` query. -/
theorem connect_issues_no_fetch (s : ProviderState) (es : List SocketEvent) :
    (handleEvent s .connect).2.filter Effect.isFetch = [] ∧
    (handleEvent s .connect).1.isConnected = true ∧
    (handleEvent s .connect).1.boardingQueue = s.boardingQueue ∧
    (handleEvent s .connect).1.passengers = s.passengers ∧
    (runEvents s es).2.filter Effect.isFetch = [] ∧
    (handleEvent s .connect).2
      = [.consoleLog "Connected to server", .toastSuccess "Connected to real-time updates"] :=
  ⟨rfl, rfl, rfl, rfl, runEvents_no_fetch es s, rfl⟩

/-! ## The Board button (C6) -/

/-- C6: the Board button never reaches the API. `airplaneAPI` defines
`boardPassenger`, which would post the passengerId to `/board-passenger`, but
the mutation calls the undefined `airplaneAPI.closePassenger`; so whatever the
server would answer, pressing Board on a row makes no request, never runs the
success path and only shows the error notice of the thrown `TypeError`. -/
theorem board_button_makes_no_request (transport : Transport) (ps : PassengerMap)
    (entry : QueueEntry) (index : Nat) :
    airplaneAPI "closePassenger" = none ∧
    (airplaneAPI "boardPassenger").map (fun method => method (.scalar (.num entry.2.2)))
      = some { method := "POST", url := "/board-passenger",
               body := some (.fields [("passengerId", .scalar (.num entry.2.2))]) } ∧
    Row.clickBoard transport (GateControl.renderRow ps entry index)
      = [.toastError "airplaneAPI.closePassenger is not a function"] ∧
    GateControl.handleClosePassenger transport entry.2.2
      = [.toastError "airplaneAPI.closePassenger is not a function"] := by
  refine ⟨by simp [airplaneAPI], by simp [airplaneAPI, apiPost], ?_, ?_⟩
  · obtain ⟨priority, timeSlot, passengerId⟩ := entry
    rfl
  · rfl

/-! ## Rendered rows (C7) -/

theorem mapIdxFrom_renderRow_entries (ps : PassengerMap) (q : List QueueEntry) (i : Nat) :
    (mapIdxFrom (GateControl.renderRow ps) i q).map (fun r => (r.priority, r.timeSlot, r.key))
      = q := by
  induction q generalizing i with
  | nil => rfl
  | cons e q ih =>
    obtain ⟨priority, timeSlot, passengerId⟩ := e
    simp only [mapIdxFrom, List.map_cons, ih]
    rfl

theorem mapIdxFrom_renderRow_positions (ps : PassengerMap) (q : List QueueEntry) (i : Nat) :
    (mapIdxFrom (GateControl.renderRow ps) i q).map (fun r => r.position)
      = List.range' (i + 1) q.length := by
  induction q generalizing i with
  | nil => rfl
  | cons e q ih =>
    obtain ⟨priority, timeSlot, passengerId⟩ := e
    simp only [mapIdxFrom, List.map_cons, ih, List.length_cons, List.range'_succ]
    rfl

theorem mapIdxFrom_renderRow_buttons (ps : PassengerMap) (q : List QueueEntry) (i : Nat) :
    (mapIdxFrom (GateControl.renderRow ps) i q).map (fun r => r.boardButtonArg)
      = q.map (fun e => e.2.2) := by
  induction q generalizing i with
  | nil => rfl
  | cons e q ih =>
    obtain ⟨priority, timeSlot, passengerId⟩ := e
    simp only [mapIdxFrom, List.map_cons, ih]
    rfl

/-- C7: `GateControl` never re-sorts. Once loaded without error it renders a
dashboard whose rows, read in order, carry exactly the triples of the displayed
queue in the same order (priority, time slot and passengerId from the first,
second and third component), the row at 0-based index `i` is labelled `i + 1`,
and the count shown is the length of the queue. -/
theorem gate_control_rows_follow_queue (s : ProviderState) (qr : QueryResult)
    (hloaded : qr.isLoading = false) (hok : qr.error = none) :
    ∃ rows : List Row,
      GateControl.render s qr
        = .dashboard (GateControl.queue s.boardingQueue qr.data).length
            (GateControl.statusCard s.isConnected)
            ((GateControl.queue s.boardingQueue qr.data).length == 0) rows ∧
      rows.map (fun r => (r.priority, r.timeSlot, r.key))
        = GateControl.queue s.boardingQueue qr.data ∧
      rows.map (fun r => r.position)
        = List.range' 1 (GateControl.queue s.boardingQueue qr.data).length ∧
      rows.map (fun r => r.boardButtonArg)
        = (GateControl.queue s.boardingQueue qr.data).map (fun e => e.2.2) ∧
      rows.length = (GateControl.queue s.boardingQueue qr.data).length := by
  by_cases hq : GateControl.queue s.boardingQueue qr.data = []
  · refine ⟨[], ?_, ?_, ?_, ?_, ?_⟩
    · simp [GateControl.render, hloaded, hok, hq]
    · simp [hq]
    · simp [hq]
    · simp [hq]
    · simp [hq]
  · have hlen : ((GateControl.queue s.boardingQueue qr.data).length == 0) = false := by
      simpa using hq
    refine ⟨jsMap (GateControl.renderRow (GateControl.allPassengers s.passengers qr.data))
      (GateControl.queue s.boardingQueue qr.data), ?_, ?_, ?_, ?_, ?_⟩
    · simp [GateControl.render, hloaded, hok, hlen]
    · exact mapIdxFrom_renderRow_entries _ _ 0
    · exact mapIdxFrom_renderRow_positions _ _ 0
    · exact mapIdxFrom_renderRow_buttons _ _ 0
    · have h := congrArg List.length (mapIdxFrom_renderRow_entries
        (GateControl.allPassengers s.passengers qr.data)
        (GateControl.queue s.boardingQueue qr.data) 0)
      simpa [jsMap] using h

/-- Witness of `gate_control_rows_follow_queue`: a pushed queue of three entries
that is not sorted by priority is rendered in the order received. -/
theorem gate_control_rows_follow_queue_witness :
    ∃ rows : List Row,
      GateControl.render
          { socket := none, isConnected := true,
            boardingQueue := [(2, "08:05", 102), (1, "08:00", 101), (1, "07:55", 103)],
            passengers := [(101, passenger101)] }
          { data := none, isLoading := false, error := none }
        = .dashboard 3 (GateControl.statusCard true) false rows ∧
      rows.map (fun r => (r.priority, r.timeSlot, r.key))
        = [(2, "08:05", 102), (1, "08:00", 101), (1, "07:55", 103)] ∧
      rows.map (fun r => r.position) = [1, 2, 3] := by
  obtain ⟨rows, h1, h2, h3, _, _⟩ := gate_control_rows_follow_queue
    { socket := none, isConnected := true,
      boardingQueue := [(2, "08:05", 102), (1, "08:00", 101), (1, "07:55", 103)],
      passengers := [(101, passenger101)] }
    { data := none, isLoading := false, error := none } rfl rfl
  exact ⟨rows, h1, h2, h3⟩

/-! ## Joining a passenger room (C8) -/

/-- C8: `joinPassengerRoom` is a no-op when not connected. If the socket is null
or `isConnected` is false it emits nothing and returns the state unchanged, and
nothing is queued: no later sequence of socket events (a `connect` among them)
emits anything. If the socket exists and `isConnected` is true it emits exactly
one `join_passenger_room` event whose payload has the single field `passengerId`. -/
theorem joinPassengerRoom_best_effort (s : ProviderState) (passengerId : Nat) :
    (s.socket = none ∨ s.isConnected = false →
      joinPassengerRoom s passengerId = (s, []) ∧
      (handleEvent (joinPassengerRoom s passengerId).1 .connect).2.filter Effect.isEmit = [] ∧
      ∀ es : List SocketEvent,
        (runEvents (joinPassengerRoom s passengerId).1 es).2.filter Effect.isEmit = []) ∧
    (s.socket ≠ none ∧ s.isConnected = true →
      joinPassengerRoom s passengerId
        = (s, [.emit "join_passenger_room" [("passengerId", .num passengerId)]])) := by
  constructor
  · intro h
    have hj : joinPassengerRoom s passengerId = (s, []) := by
      unfold joinPassengerRoom
      rcases h with h | h
      · simp [h]
      · simp [h]
    refine ⟨hj, ?_, ?_⟩
    · exact handleEvent_no_emit _ _
    · intro es
      exact runEvents_no_emit es _
  · rintro ⟨hs, hc⟩
    unfold joinPassengerRoom
    cases hsock : s.socket with
    | none => exact absurd hsock hs
    | some h => simp [hc]

/-- Witness of `joinPassengerRoom_best_effort`: a mounted provider that is not
yet connected emits nothing, also after it connects; a connected one emits
the join event for passenger 101. -/
theorem joinPassengerRoom_best_effort_witness :
    (joinPassengerRoom (mount none initialState) 101 = (mount none initialState, []) ∧
      (runEvents (joinPassengerRoom (mount none initialState) 101).1 [.connect]).2.filter
        Effect.isEmit = []) ∧
    joinPassengerRoom liveState103 101
      = (liveState103, [.emit "join_passenger_room" [("passengerId", .num 101)]]) :=
  ⟨⟨((joinPassengerRoom_best_effort (mount none initialState) 101).1 (Or.inr rfl)).1,
    ((joinPassengerRoom_best_effort (mount none initialState) 101).1 (Or.inr rfl)).2.2 [.connect]⟩,
   (joinPassengerRoom_best_effort liveState103 101).2 ⟨by decide, rfl⟩⟩

/-! ## The connection flag (C9, C10) -/

/-- The flag a sequence of events leaves, given the flag before it. -/
theorem runEvents_isConnected (es : List SocketEvent) (s : ProviderState) :
    (runEvents s es).1.isConnected
      = match lastLifecycle es with
        | some .connect => true
        | some _ => false
        | none => s.isConnected := by
  induction es generalizing s with
  | nil => rfl
  | cons e es ih =>
    have hrun : (runEvents s (e :: es)).1 = (runEvents (handleEvent s e).1 es).1 := rfl
    rw [hrun, ih]
    cases e with
    | connect =>
      simp only [lastLifecycle, List.filter_cons, SocketEvent.isLifecycle, if_true,
        List.getLast?_cons]
      cases (List.filter SocketEvent.isLifecycle es).getLast? with
      | none => rfl
      | some v => cases v <;> rfl
    | disconnect reason =>
      simp only [lastLifecycle, List.filter_cons, SocketEvent.isLifecycle, if_true,
        List.getLast?_cons]
      cases (List.filter SocketEvent.isLifecycle es).getLast? with
      | none => rfl
      | some v => cases v <;> rfl
    | connect_error error =>
      simp only [lastLifecycle, List.filter_cons, SocketEvent.isLifecycle, if_true,
        List.getLast?_cons]
      cases (List.filter SocketEvent.isLifecycle es).getLast? with
      | none => rfl
      | some v => cases v <;> rfl
    | boarding_update data =>
      simp only [lastLifecycle, List.filter_cons, SocketEvent.isLifecycle]
      rfl
    | flight_announcement message =>
      simp only [lastLifecycle, List.filter_cons, SocketEvent.isLifecycle]
      rfl

theorem runEvents_mounted_isConnected (env : Option String) (es : List SocketEvent) :
    (runEvents (mount env initialState) es).1.isConnected = true
      ↔ lastLifecycle es = some .connect := by
  rw [runEvents_isConnected]
  cases h : lastLifecycle es with
  | none => simp [mount, initialState]
  | some e => cases e <;> simp

/-- C9: lifecycle signals only drive the connection flag. After any sequence of
socket events on a mounted provider, `isConnected` is true exactly when the most
recent of the events `connect`, `disconnect`, `connect_error` was `connect`
(false when there was none), and none of the three lifecycle handlers changes
`boardingQueue` or `passengers`. -/
theorem lifecycle_drives_only_isConnected (env : Option String) (es : List SocketEvent)
    (s : ProviderState) (reason error : String) :
    ((runEvents (mount env initialState) es).1.isConnected = true
      ↔ lastLifecycle es = some .connect) ∧
    ((runEvents initialState es).1.isConnected = true ↔ lastLifecycle es = some .connect) ∧
    (lastLifecycle es = none → (runEvents (mount env initialState) es).1.isConnected = false) ∧
    (handleEvent s .connect).1.boardingQueue = s.boardingQueue ∧
    (handleEvent s .connect).1.passengers = s.passengers ∧
    (handleEvent s (.disconnect reason)).1.boardingQueue = s.boardingQueue ∧
    (handleEvent s (.disconnect reason)).1.passengers = s.passengers ∧
    (handleEvent s (.connect_error error)).1.boardingQueue = s.boardingQueue ∧
    (handleEvent s (.connect_error error)).1.passengers = s.passengers := by
  refine ⟨runEvents_mounted_isConnected env es, ?_, ?_, rfl, rfl, rfl, rfl, rfl, rfl⟩
  · rw [runEvents_isConnected]
    cases h : lastLifecycle es with
    | none => simp [initialState]
    | some e => cases e <;> simp
  · intro h
    rw [runEvents_isConnected, h]
    rfl

/-- Witness of `lifecycle_drives_only_isConnected`: with pushes only, the flag
stays false. -/
theorem lifecycle_drives_only_isConnected_witness :
    lastLifecycle [.boarding_update emptyPush, .flight_announcement "Gate changed"] = none ∧
    (runEvents (mount none initialState)
      [.boarding_update emptyPush, .flight_announcement "Gate changed"]).1.isConnected = false :=
  ⟨rfl, (lifecycle_drives_only_isConnected none
      [.boarding_update emptyPush, .flight_announcement "Gate changed"]
      initialState "" "").2.2.1 rfl⟩

/-- C10, counterexample: the context value of a mounted provider before the
first `connect` equals the one after `connect` followed by `disconnect`, and
the one after a `connect_error`; `ConnectionStatus` and the status card of
`GateControl` render the three identically. There is no separate Connecting
value. -/
theorem connecting_equals_disconnected :
    contextValue (mount none initialState)
      = contextValue (runEvents (mount none initialState)
          [.connect, .disconnect "transport close"]).1 ∧
    contextValue (mount none initialState)
      = contextValue (runEvents (mount none initialState) [.connect_error "timeout"]).1 ∧
    ConnectionStatus (mount none initialState).isConnected
      = ConnectionStatus (runEvents (mount none initialState)
          [.connect, .disconnect "transport close"]).1.isConnected ∧
    GateControl.statusCard (mount none initialState).isConnected
      = GateControl.statusCard (runEvents (mount none initialState)
          [.connect, .disconnect "transport close"]).1.isConnected :=
  ⟨rfl, rfl, rfl, rfl⟩

/-- C10, amended: the connection state exposed by `SocketProvider` is the boolean
`isConnected`, with two distinguishable values. After any sequence of socket
events it is true, rendered `Connected`, exactly when the most recent lifecycle
event was `connect`; before the first `connect` and after a `disconnect` or
`connect_error` it is false and rendered alike (`Connection Lost` by
`ConnectionStatus`, `Disconnected` by `GateControl`), differently from
`Connected`. -/
theorem connection_state_two_values (env : Option String) (es : List SocketEvent) :
    (lastLifecycle es = some .connect →
      ConnectionStatus (runEvents (mount env initialState) es).1.isConnected
        = ConnectionStatus true ∧
      GateControl.statusCard (runEvents (mount env initialState) es).1.isConnected
        = GateControl.statusCard true) ∧
    (lastLifecycle es ≠ some .connect →
      ConnectionStatus (runEvents (mount env initialState) es).1.isConnected
        = ConnectionStatus false ∧
      GateControl.statusCard (runEvents (mount env initialState) es).1.isConnected
        = GateControl.statusCard false) ∧
    (ConnectionStatus true).label = "Connected" ∧
    (ConnectionStatus false).label = "Connection Lost" ∧
    (GateControl.statusCard true).label = "Connected" ∧
    (GateControl.statusCard false).label = "Disconnected" ∧
    ConnectionStatus true ≠ ConnectionStatus false ∧
    GateControl.statusCard true ≠ GateControl.statusCard false := by
  refine ⟨?_, ?_, rfl, rfl, rfl, rfl, by decide, by decide⟩
  · intro h
    rw [(runEvents_mounted_isConnected env es).mpr h]
    exact ⟨rfl, rfl⟩
  · intro h
    have hf : (runEvents (mount env initialState) es).1.isConnected = false := by
      cases hc : (runEvents (mount env initialState) es).1.isConnected with
      | false => rfl
      | true => exact absurd ((runEvents_mounted_isConnected env es).mp hc) h
    rw [hf]
    exact ⟨rfl, rfl⟩

/-- Witness of `connection_state_two_values`: after `connect` the badge reads
`Connected`; after a later `disconnect` it reads as it did before connecting. -/
theorem connection_state_two_values_witness :
    ConnectionStatus (runEvents (mount none initialState) [.connect]).1.isConnected
      = ConnectionStatus true ∧
    ConnectionStatus
        (runEvents (mount none initialState) [.connect, .disconnect "transport close"]).1.isConnected
      = ConnectionStatus false :=
  ⟨((connection_state_two_values none [.connect]).1 rfl).1,
   ((connection_state_two_values none [.connect, .disconnect "transport close"]).2.1
      (by decide)).1⟩

/-! ## The response interceptor (C11) -/

/-- C11: every error reaching the response interceptor is thrown on, never
returned, and for a body that is text (the empty body included) or an object
the message is the server's `error` text when non-empty and else the default
of the status; without a response it is the network message when a request was
sent and else the original message or the fallback. The slip: when the body
value is `null`, as with status 404 and the JSON body `null`, reading
`data.error` raises a `TypeError` before any message is chosen, so the thrown
value is not the `Error` with the status default. -/
theorem interceptor_null_body_raises_type_error (status : Nat) (text : String)
    (dataError message : Option String) (request : Bool) :
    responseErrorHandler
        { response := some { status := 404, data := .null }, request := true,
          message := some "Request failed with status code 404" }
      = .error (.typeError "error") ∧
    responseErrorHandler
        { response := some { status := 404, data := .null }, request := true,
          message := some "Request failed with status code 404" }
      ≠ .error (.error (statusDefault 404)) ∧
    responseErrorHandler
        { response := some { status := status, data := .null }, request := request,
          message := message }
      = .error (.typeError "error") ∧
    responseErrorHandler
        { response := some { status := status, data := .text text }, request := request,
          message := message }
      = .error (.error (statusDefault status)) ∧
    responseErrorHandler
        { response := some { status := status, data := .object dataError }, request := request,
          message := message }
      = .error (.error (jsOrStr dataError (statusDefault status))) ∧
    responseErrorHandler { response := none, request := true, message := message }
      = .error (.error "Network error - please check your connection") ∧
    responseErrorHandler { response := none, request := false, message := message }
      = .error (.error (jsOrStr message "An unexpected error occurred")) := by
  refine ⟨rfl, ?_, rfl, ?_, ?_, rfl, rfl⟩
  · intro h
    cases h
  · by_cases h1 : status = 404
    · subst h1
      rfl
    · by_cases h2 : status = 400
      · subst h2
        rfl
      · by_cases h3 : status = 500
        · subst h3
          rfl
        · simp only [responseErrorHandler, ResponseData.readError, statusDefault, h1, h2, h3,
            if_false]
          rfl
  · by_cases h1 : status = 404
    · subst h1
      rfl
    · by_cases h2 : status = 400
      · subst h2
        rfl
      · by_cases h3 : status = 500
        · subst h3
          rfl
        · simp only [responseErrorHandler, ResponseData.readError, statusDefault, h1, h2, h3,
            if_false]

/-! ## The merge of pushed and polled data (C12, C13) -/

/-- C12: the merge of `GateControl` is "whichever source has non-empty data
wins", field by field: the queue shown is the pushed `boardingQueue` when it has
at least one entry, otherwise the polled queue, otherwise the empty list; the
passengers shown are the pushed `passengers` when they have at least one key,
otherwise the polled passengers, otherwise the empty object. -/
theorem merge_nonempty_wins (s : ProviderState) (poll : Option GateControlData) :
    (0 < s.boardingQueue.length → GateControl.queue s.boardingQueue poll = s.boardingQueue) ∧
    (s.boardingQueue.length = 0 →
      ∀ d q, poll = some d → d.queue = some q → GateControl.queue s.boardingQueue poll = q) ∧
    (s.boardingQueue.length = 0 →
      (poll = none ∨ ∃ d, poll = some d ∧ d.queue = none) →
      GateControl.queue s.boardingQueue poll = []) ∧
    (0 < (objectKeys s.passengers).length →
      GateControl.allPassengers s.passengers poll = s.passengers) ∧
    ((objectKeys s.passengers).length = 0 →
      ∀ d p, poll = some d → d.passengers = some p →
        GateControl.allPassengers s.passengers poll = p) ∧
    ((objectKeys s.passengers).length = 0 →
      (poll = none ∨ ∃ d, poll = some d ∧ d.passengers = none) →
      GateControl.allPassengers s.passengers poll = []) := by
  refine ⟨?_, ?_, ?_, ?_, ?_, ?_⟩
  · intro h
    exact queue_of_nonempty _ _ (List.length_pos.mp h)
  · intro h d q hd hq
    rw [List.length_eq_zero.mp h, queue_of_empty, hd]
    simp [hq, jsOr]
  · intro h hp
    rw [List.length_eq_zero.mp h, queue_of_empty]
    rcases hp with hp | ⟨d, hd, hq⟩
    · rw [hp]
      rfl
    · rw [hd]
      simp [hq, jsOr]
  · intro h
    apply allPassengers_of_nonempty
    intro hnil
    rw [hnil] at h
    exact absurd h (by decide)
  · intro h d p hd hp
    have hnil : s.passengers = [] := by
      simpa [objectKeys] using h
    rw [hnil, allPassengers_of_empty, hd]
    simp [hp, jsOr]
  · intro h hp
    have hnil : s.passengers = [] := by
      simpa [objectKeys] using h
    rw [hnil, allPassengers_of_empty]
    rcases hp with hp | ⟨d, hd, hq⟩
    · rw [hp]
      rfl
    · rw [hd]
      simp [hq, jsOr]

/-- Witness of `merge_nonempty_wins`: a held push wins over the poll, and a
provider without pushed data shows the poll. -/
theorem merge_nonempty_wins_witness :
    GateControl.queue liveState103.boardingQueue (some poll101) = [(1, "07:55", 103)] ∧
    GateControl.queue (mount none initialState).boardingQueue (some poll101)
      = [(1, "08:00", 101)] ∧
    GateControl.allPassengers (mount none initialState).passengers none = [] :=
  ⟨(merge_nonempty_wins liveState103 (some poll101)).1 (by decide),
   (merge_nonempty_wins (mount none initialState) (some poll101)).2.1 rfl poll101
      [(1, "08:00", 101)] rfl rfl,
   (merge_nonempty_wins (mount none initialState) none).2.2.2.2.2 rfl (Or.inl rfl)⟩

/-- C13, counterexample: once everybody has boarded, the push carries an empty
queue and a passengers object that still lists passenger 103, while the last
poll lists passenger 101. The dashboard then shows the polled queue with the
pushed passengers, which is neither snapshot, and looks passenger 101 up in
the pushed object, where it is absent, although its own snapshot holds it. -/
theorem displayed_state_mixes_sources :
    GateControl.queue (handleEvent liveState103 (.boarding_update allBoardedPush)).1.boardingQueue
      (some poll101) = [(1, "08:00", 101)] ∧
    GateControl.allPassengers
      (handleEvent liveState103 (.boarding_update allBoardedPush)).1.passengers
      (some poll101) = [(103, passenger103)] ∧
    ¬ ((GateControl.queue
          (handleEvent liveState103 (.boarding_update allBoardedPush)).1.boardingQueue
          (some poll101) = jsOr allBoardedPush.queue [] ∧
        GateControl.allPassengers
          (handleEvent liveState103 (.boarding_update allBoardedPush)).1.passengers
          (some poll101) = jsOr allBoardedPush.passengers []) ∨
       (GateControl.queue
          (handleEvent liveState103 (.boarding_update allBoardedPush)).1.boardingQueue
          (some poll101) = jsOr poll101.queue [] ∧
        GateControl.allPassengers
          (handleEvent liveState103 (.boarding_update allBoardedPush)).1.passengers
          (some poll101) = jsOr poll101.passengers [])) ∧
    getProp
      (GateControl.allPassengers
        (handleEvent liveState103 (.boarding_update allBoardedPush)).1.passengers (some poll101))
      101 = none ∧
    getProp (jsOr poll101.passengers []) 101 = some passenger101 := by
  decide

/-- C13, amended: the queue shown is one complete list and the passengers shown
are one complete object, each taken whole from the last push or from the last
poll, the source being chosen for each of the two separately: both are the
pushed ones when the pushed queue and the pushed passengers are both non-empty,
both are the polled ones when both are empty; every row resolves its
passengerId in the passengers object shown. -/
theorem displayed_fields_each_from_one_source (s : ProviderState) (poll : Option GateControlData)
    (entry : QueueEntry) (index : Nat) :
    (GateControl.queue s.boardingQueue poll = s.boardingQueue ∨
      GateControl.queue s.boardingQueue poll = jsOr (poll.bind (fun d => d.queue)) []) ∧
    (GateControl.allPassengers s.passengers poll = s.passengers ∨
      GateControl.allPassengers s.passengers poll
        = jsOr (poll.bind (fun d => d.passengers)) []) ∧
    (s.boardingQueue ≠ [] ∧ s.passengers ≠ [] →
      GateControl.queue s.boardingQueue poll = s.boardingQueue ∧
      GateControl.allPassengers s.passengers poll = s.passengers) ∧
    (s.boardingQueue = [] ∧ s.passengers = [] →
      GateControl.queue s.boardingQueue poll = jsOr (poll.bind (fun d => d.queue)) [] ∧
      GateControl.allPassengers s.passengers poll
        = jsOr (poll.bind (fun d => d.passengers)) []) ∧
    (GateControl.renderRow (GateControl.allPassengers s.passengers poll) entry index).name
      = jsOrStr
          ((getProp (GateControl.allPassengers s.passengers poll) entry.2.2).bind
            (fun p => p.name))
          ("Passenger " ++ toString entry.2.2) := by
  refine ⟨?_, ?_, ?_, ?_, ?_⟩
  · by_cases h : s.boardingQueue = []
    · right
      rw [h, queue_of_empty]
    · left
      exact queue_of_nonempty _ _ h
  · by_cases h : s.passengers = []
    · right
      rw [h, allPassengers_of_empty]
    · left
      exact allPassengers_of_nonempty _ _ h
  · rintro ⟨hq, hp⟩
    exact ⟨queue_of_nonempty _ _ hq, allPassengers_of_nonempty _ _ hp⟩
  · rintro ⟨hq, hp⟩
    rw [hq, hp, queue_of_empty, allPassengers_of_empty]
    exact ⟨rfl, rfl⟩
  · obtain ⟨priority, timeSlot, passengerId⟩ := entry
    rfl

/-- Witness of `displayed_fields_each_from_one_source`: with a non-empty pushed
queue and pushed passengers, both shown fields are the pushed ones. -/
theorem displayed_fields_each_from_one_source_witness :
    (liveState103.boardingQueue ≠ [] ∧ liveState103.passengers ≠ []) ∧
    GateControl.queue liveState103.boardingQueue (some poll101) = liveState103.boardingQueue ∧
    GateControl.allPassengers liveState103.passengers (some poll101) = liveState103.passengers :=
  ⟨by decide,
   (displayed_fields_each_from_one_source liveState103 (some poll101) (1, "07:55", 103) 0).2.2.1
      (by decide)⟩

/-! ## Idempotent boarding (C14) -/

theorem lookup_setBoarded (pid : Nat) (m : List (Nat × BoardingState)) :
    (setBoarded pid m).lookup pid = (m.lookup pid).map (fun _ => BoardingState.Boarded) := by
  induction m with
  | nil => rfl
  | cons kv rest ih =>
    obtain ⟨k, v⟩ := kv
    by_cases h : k = pid
    · subst h
      simp [setBoarded, List.lookup_cons]
    · have hb : (pid == k) = false := by
        simpa using fun h2 => h h2.symm
      simp [setBoarded, h, List.lookup_cons, hb, ih]

theorem remove_of_mem (q : List QueueEntry) (pid : Nat)
    (h : pid ∈ q.map (fun e => e.2.2)) :
    ∃ e, (QueueStore.remove q pid).1 = some e ∧
      (QueueStore.remove q pid).2.length + 1 = q.length := by
  induction q with
  | nil => simp at h
  | cons x xs ih =>
    by_cases hx : x.2.2 = pid
    · exact ⟨x, by simp [QueueStore.remove, hx]⟩
    · have hmem : pid ∈ xs.map (fun e => e.2.2) := by
        rcases List.mem_map.mp h with ⟨e, he, hid⟩
        rcases List.mem_cons.mp he with he | he
        · subst he
          exact absurd hid hx
        · exact List.mem_map.mpr ⟨e, he, hid⟩
      obtain ⟨e, h1, h2⟩ := ih hmem
      exact ⟨e, by simp [QueueStore.remove, hx, h1], by simp [QueueStore.remove, hx, h2]⟩

theorem board_of_queued (c : Core) (pid : Nat)
    (hq : c.boardingState.lookup pid = some .Queued)
    (hmem : pid ∈ c.queue.map (fun e => e.2.2)) :
    AdmissionController.board c pid
      = (.ok .Boarded,
         { queue := (QueueStore.remove c.queue pid).2,
           boardingState := setBoarded pid c.boardingState }) := by
  obtain ⟨e, h1, _⟩ := remove_of_mem c.queue pid hmem
  unfold AdmissionController.board
  rw [hq]
  cases hr : QueueStore.remove c.queue pid with
  | mk o rest =>
    rw [hr] at h1
    simp only at h1
    subst h1
    rfl

theorem board_of_boarded (c : Core) (pid : Nat)
    (hb : c.boardingState.lookup pid = some .Boarded) :
    AdmissionController.board c pid = (.ok .AlreadyBoarded, c) := by
  unfold AdmissionController.board
  rw [hb]

theorem boardRepeat_of_boarded (c : Core) (pid : Nat) (n : Nat)
    (hb : c.boardingState.lookup pid = some .Boarded) :
    boardRepeat c pid n = (List.replicate n (.ok .AlreadyBoarded), c) := by
  induction n with
  | zero => rfl
  | succ n ih =>
    simp only [boardRepeat, board_of_boarded c pid hb, ih, List.replicate_succ]

/-- C14: idempotent boarding. For a passenger that is queued, `board` called
`n + 1` times in a row yields `Boarded` on the first call and `AlreadyBoarded`
on every later call (so twice gives `Boarded`, `AlreadyBoarded`); the later
calls leave the state of the first, and the queue is shorter by exactly one. -/
theorem board_idempotent (c : Core) (passengerId : Nat) (n : Nat)
    (hqueued : c.boardingState.lookup passengerId = some .Queued)
    (hmem : passengerId ∈ c.queue.map (fun e => e.2.2)) :
    (boardRepeat c passengerId (n + 1)).1
      = .ok .Boarded :: List.replicate n (.ok .AlreadyBoarded) ∧
    (boardRepeat c passengerId 2).1 = [.ok .Boarded, .ok .AlreadyBoarded] ∧
    (boardRepeat c passengerId (n + 1)).2 = (AdmissionController.board c passengerId).2 ∧
    (boardRepeat c passengerId (n + 1)).2.queue.length + 1 = c.queue.length := by
  have hb := board_of_queued c passengerId hqueued hmem
  have hstate : ({ queue := (QueueStore.remove c.queue passengerId).2,
                   boardingState := setBoarded passengerId c.boardingState } : Core).boardingState.lookup
      passengerId = some .Boarded := by
    show (setBoarded passengerId c.boardingState).lookup passengerId = _
    rw [lookup_setBoarded, hqueued]
    rfl
  have hrep := fun m => boardRepeat_of_boarded _ passengerId m hstate
  obtain ⟨e, _, hlen⟩ := remove_of_mem c.queue passengerId hmem
  have hgen : ∀ m, boardRepeat c passengerId (m + 1)
      = (.ok .Boarded :: List.replicate m (.ok .AlreadyBoarded),
         { queue := (QueueStore.remove c.queue passengerId).2,
           boardingState := setBoarded passengerId c.boardingState }) := by
    intro m
    simp only [boardRepeat, hb, hrep]
  refine ⟨?_, ?_, ?_, ?_⟩
  · rw [hgen n]
  · rw [hgen 1]
    rfl
  · rw [hgen n, hb]
  · rw [hgen n]
    exact hlen

/-- Witness of `board_idempotent`: passenger 103 of the example store is boarded
three times. -/
theorem board_idempotent_witness :
    (boardRepeat exampleCore 103 3).1
      = [.ok .Boarded, .ok .AlreadyBoarded, .ok .AlreadyBoarded] ∧
    (boardRepeat exampleCore 103 3).2.queue.length + 1 = exampleCore.queue.length :=
  ⟨(board_idempotent exampleCore 103 2 (by decide) (by decide)).1,
   (board_idempotent exampleCore 103 2 (by decide) (by decide)).2.2.2⟩

/-! ## The sort invariant (C15) -/

theorem charsLe_refl (a : List Char) : charsLe a a = true := by
  induction a with
  | nil => rfl
  | cons c cs ih => simp [charsLe, ih]

theorem charsLe_total (a b : List Char) (h : charsLe a b = false) : charsLe b a = true := by
  induction a generalizing b with
  | nil => simp [charsLe] at h
  | cons c cs ih =>
    cases b with
    | nil => rfl
    | cons d ds =>
      simp only [charsLe, Bool.or_eq_false_iff, Bool.and_eq_false_iff, decide_eq_false_iff_not] at h
      simp only [charsLe, Bool.or_eq_true, Bool.and_eq_true, decide_eq_true_eq]
      obtain ⟨h1, h2⟩ := h
      rcases h2 with h2 | h2
      · left
        omega
      · by_cases heq : c.toNat = d.toNat
        · right
          exact ⟨heq.symm, ih ds h2⟩
        · left
          omega

theorem charsLe_trans (a b c : List Char) (hab : charsLe a b = true) (hbc : charsLe b c = true) :
    charsLe a c = true := by
  induction a generalizing b c with
  | nil => rfl
  | cons x xs ih =>
    cases b with
    | nil => simp [charsLe] at hab
    | cons y ys =>
      cases c with
      | nil => simp [charsLe] at hbc
      | cons z zs =>
        simp only [charsLe, Bool.or_eq_true, Bool.and_eq_true, decide_eq_true_eq] at hab hbc ⊢
        rcases hab with hab | ⟨hab, hab2⟩
        · rcases hbc with hbc | ⟨hbc, _⟩
          · left
            omega
          · left
            omega
        · rcases hbc with hbc | ⟨hbc, hbc2⟩
          · left
            omega
          · right
            exact ⟨by omega, ih ys zs hab2 hbc2⟩

theorem keyLe_refl (a : QueueEntry) : keyLe a a = true := by
  simp [keyLe, charsLe_refl]

theorem keyLe_total (a b : QueueEntry) (h : keyLe a b = false) : keyLe b a = true := by
  simp only [keyLe, Bool.or_eq_false_iff, Bool.and_eq_false_iff, decide_eq_false_iff_not] at h
  simp only [keyLe, Bool.or_eq_true, Bool.and_eq_true, decide_eq_true_eq]
  obtain ⟨h1, h2⟩ := h
  rcases h2 with h2 | h2
  · left
    omega
  · by_cases heq : a.1 = b.1
    · right
      exact ⟨heq.symm, charsLe_total _ _ h2⟩
    · left
      omega

theorem keyLe_trans (a b c : QueueEntry) (hab : keyLe a b = true) (hbc : keyLe b c = true) :
    keyLe a c = true := by
  simp only [keyLe, Bool.or_eq_true, Bool.and_eq_true, decide_eq_true_eq] at hab hbc ⊢
  rcases hab with hab | ⟨hab, hab2⟩
  · rcases hbc with hbc | ⟨hbc, _⟩
    · left
      omega
    · left
      omega
  · rcases hbc with hbc | ⟨hbc, hbc2⟩
    · left
      omega
    · right
      exact ⟨by omega, charsLe_trans _ _ _ hab2 hbc2⟩

theorem keyLe_of_same_key (x a b : QueueEntry) (h : (a.1, a.2.1) = (b.1, b.2.1)) :
    keyLe x a = keyLe x b := by
  obtain ⟨h1, h2⟩ := Prod.mk.inj h
  simp [keyLe, h1, h2]

theorem mem_insert (e y : QueueEntry) (q : List QueueEntry) :
    y ∈ QueueStore.insert e q ↔ y = e ∨ y ∈ q := by
  induction q with
  | nil => simp [QueueStore.insert]
  | cons x xs ih =>
    by_cases h : keyLe x e = true
    · simp only [QueueStore.insert, h, if_true, List.mem_cons, ih]
      tauto
    · simp only [QueueStore.insert, h, List.mem_cons]
      simp

theorem insert_pairwise (e : QueueEntry) (q : List QueueEntry)
    (hq : q.Pairwise (fun a b => keyLe a b = true)) :
    (QueueStore.insert e q).Pairwise (fun a b => keyLe a b = true) := by
  induction q with
  | nil => simp [QueueStore.insert]
  | cons x xs ih =>
    have hx := List.pairwise_cons.mp hq
    by_cases h : keyLe x e = true
    · simp only [QueueStore.insert, h, if_true]
      refine List.pairwise_cons.mpr ⟨?_, ih hx.2⟩
      intro y hy
      rcases (mem_insert e y xs).mp hy with hy | hy
      · rw [hy]
        exact h
      · exact hx.1 y hy
    · simp only [QueueStore.insert, h]
      have hex : keyLe e x = true := keyLe_total x e (by simpa using h)
      refine List.pairwise_cons.mpr ⟨?_, hq⟩
      intro y hy
      rcases List.mem_cons.mp hy with hy | hy
      · rw [hy]
        exact hex
      · exact keyLe_trans e x y hex (hx.1 y hy)

theorem insert_perm (e : QueueEntry) (q : List QueueEntry) :
    (QueueStore.insert e q).Perm (e :: q) := by
  induction q with
  | nil => simp [QueueStore.insert]
  | cons x xs ih =>
    by_cases h : keyLe x e = true
    · simp only [QueueStore.insert, h, if_true]
      exact (List.Perm.cons x ih).trans (List.Perm.swap e x xs)
    · simp only [QueueStore.insert, h]
      exact List.Perm.refl _

theorem filter_insert (k : Nat × String) (e : QueueEntry) (q : List QueueEntry)
    (hq : q.Pairwise (fun a b => keyLe a b = true)) :
    (QueueStore.insert e q).filter (fun x => decide ((x.1, x.2.1) = k))
      = q.filter (fun x => decide ((x.1, x.2.1) = k))
          ++ (if (e.1, e.2.1) = k then [e] else []) := by
  induction q with
  | nil =>
    by_cases hk : (e.1, e.2.1) = k <;> simp [QueueStore.insert, List.filter_cons, hk]
  | cons x xs ih =>
    have hx := List.pairwise_cons.mp hq
    by_cases h : keyLe x e = true
    · simp only [QueueStore.insert, h, if_true, List.filter_cons, ih hx.2]
      by_cases hxk : (x.1, x.2.1) = k <;> simp [hxk]
    · have hins : QueueStore.insert e (x :: xs) = e :: x :: xs := by
        simp [QueueStore.insert, h]
      rw [hins]
      by_cases hk : (e.1, e.2.1) = k
      · have hnone : ∀ y ∈ x :: xs, ¬ (y.1, y.2.1) = k := by
          intro y hy hyk
          have hsame : (y.1, y.2.1) = (e.1, e.2.1) := hyk.trans hk.symm
          rcases List.mem_cons.mp hy with hy | hy
          · subst hy
            have := keyLe_of_same_key y y e hsame
            rw [keyLe_refl] at this
            exact h this.symm
          · have h1 := hx.1 y hy
            rw [keyLe_of_same_key x y e hsame] at h1
            exact h h1
        have hfil : (x :: xs).filter (fun x => decide ((x.1, x.2.1) = k)) = [] := by
          apply List.filter_eq_nil_iff.mpr
          intro y hy
          simpa using hnone y hy
        rw [List.filter_cons, hfil]
        simp [hk]
      · rw [List.filter_cons]
        simp [hk]

theorem enqueue_cases (c : Core) (e : QueueEntry) :
    (c.boardingState.lookup e.2.2 = none ∧
      QueueStore.enqueue c e
        = .ok { queue := QueueStore.insert e c.queue,
                boardingState := (e.2.2, .Queued) :: c.boardingState }) ∨
    (c.boardingState.lookup e.2.2 ≠ none ∧
      QueueStore.enqueue c e = .error .DuplicatePassenger) := by
  unfold QueueStore.enqueue
  cases h : c.boardingState.lookup e.2.2 with
  | none => exact Or.inl ⟨rfl, rfl⟩
  | some v => exact Or.inr ⟨by simp, rfl⟩

theorem enqueueAll_sorted (es : List QueueEntry) (c : Core)
    (hc : c.queue.Pairwise (fun a b => keyLe a b = true)) :
    (enqueueAll c es).queue.Pairwise (fun a b => keyLe a b = true) := by
  induction es generalizing c with
  | nil => exact hc
  | cons e es ih =>
    rcases enqueue_cases c e with ⟨_, h⟩ | ⟨_, h⟩
    · simp only [enqueueAll, h]
      exact ih _ (insert_pairwise e c.queue hc)
    · simp only [enqueueAll, h]
      exact ih c hc

theorem enqueueAll_stable (k : Nat × String) (es done : List QueueEntry) (c : Core)
    (hc : c.queue.Pairwise (fun a b => keyLe a b = true))
    (hsub : (c.queue.filter (fun x => decide ((x.1, x.2.1) = k))).Sublist done) :
    ((enqueueAll c es).queue.filter (fun x => decide ((x.1, x.2.1) = k))).Sublist
      (done ++ es) := by
  induction es generalizing c done with
  | nil => simpa [enqueueAll] using hsub
  | cons e es ih =>
    have happ : done ++ e :: es = (done ++ [e]) ++ es := by simp
    rw [happ]
    rcases enqueue_cases c e with ⟨_, h⟩ | ⟨_, h⟩
    · simp only [enqueueAll, h]
      apply ih (done ++ [e]) _ (insert_pairwise e c.queue hc)
      show ((QueueStore.insert e c.queue).filter _).Sublist _
      rw [filter_insert k e c.queue hc]
      apply List.Sublist.append hsub
      by_cases hk : (e.1, e.2.1) = k
      · simp [hk]
      · simp [hk]
    · simp only [enqueueAll, h]
      apply ih (done ++ [e]) c hc
      exact hsub.trans (List.sublist_append_left done [e])

theorem enqueueAll_perm (es done : List QueueEntry) (c : Core)
    (hperm : c.queue.Perm done)
    (hkeys : ∀ id, id ∉ done.map (fun e => e.2.2) → c.boardingState.lookup id = none)
    (hnodup : ((done ++ es).map (fun e => e.2.2)).Nodup) :
    (enqueueAll c es).queue.Perm (done ++ es) := by
  induction es generalizing c done with
  | nil => simpa [enqueueAll] using hperm
  | cons e es ih =>
    have happ : done ++ e :: es = (done ++ [e]) ++ es := by simp
    rw [happ] at hnodup ⊢
    have hnot : e.2.2 ∉ done.map (fun e => e.2.2) := by
      have h1 : ((done ++ [e]).map (fun e => e.2.2)).Nodup := by
        rw [List.map_append] at hnodup
        exact (List.nodup_append.mp hnodup).1
      rw [List.map_append, List.nodup_append] at h1
      intro hmem
      exact h1.2.2 hmem (by simp)
    rcases enqueue_cases c e with ⟨_, h⟩ | ⟨hdup, _⟩
    · simp only [enqueueAll, h]
      apply ih (done ++ [e]) _ _ _ hnodup
      · show (QueueStore.insert e c.queue).Perm (done ++ [e])
        refine (insert_perm e c.queue).trans ?_
        refine (List.Perm.cons e hperm).trans ?_
        exact (List.perm_append_singleton e done).symm
      · intro id hid
        have hne : id ≠ e.2.2 := by
          intro heq
          apply hid
          simp [heq]
        have hid2 : id ∉ done.map (fun e => e.2.2) := by
          intro hmem
          apply hid
          rw [List.map_append]
          exact List.mem_append_left _ hmem
        show List.lookup id ((e.2.2, BoardingState.Queued) :: c.boardingState) = none
        rw [List.lookup_cons]
        have hb : (id == e.2.2) = false := by simpa using hne
        rw [hb]
        exact hkeys id hid2
    · exact absurd (hkeys e.2.2 hnot) hdup

/-- C15: sort invariant. After any sequence of enqueues on an empty store the
snapshot is sorted by priority tier ascending, then time slot ascending; for
every key the entries with that key stand in the order in which they were
enqueued; when no passengerId repeats, the snapshot holds exactly the enqueued
entries; and the three enqueues of the example give the snapshot of the
example. -/
theorem enqueue_sort_invariant (es : List QueueEntry) :
    (QueueStore.snapshot (enqueueAll Core.empty es)).Pairwise
      (fun a b => a.1 < b.1 ∨ (a.1 = b.1 ∧ charsLe a.2.1.data b.2.1.data = true)) ∧
    (∀ k : Nat × String,
      ((QueueStore.snapshot (enqueueAll Core.empty es)).filter
        (fun x => decide ((x.1, x.2.1) = k))).Sublist es) ∧
    ((es.map (fun e => e.2.2)).Nodup →
      (QueueStore.snapshot (enqueueAll Core.empty es)).Perm es) ∧
    QueueStore.snapshot
        (enqueueAll Core.empty [(1, "07:55", 103), (2, "08:05", 102), (1, "08:00", 101)])
      = [(1, "07:55", 103), (1, "08:00", 101), (2, "08:05", 102)] := by
  refine ⟨?_, ?_, ?_, by decide⟩
  · refine (enqueueAll_sorted es Core.empty List.Pairwise.nil).imp ?_
    intro a b h
    simpa [keyLe] using h
  · intro k
    simpa using enqueueAll_stable k es [] Core.empty List.Pairwise.nil (List.Sublist.refl _)
  · intro h
    simpa using enqueueAll_perm es [] Core.empty (List.Perm.refl _) (fun _ _ => rfl)
      (by simpa using h)

/-- Witness of `enqueue_sort_invariant`: two entries with the same key and
different passengerIds keep their order behind an entry of a better tier. -/
theorem enqueue_sort_invariant_witness :
    (QueueStore.snapshot
      (enqueueAll Core.empty [(2, "08:05", 102), (2, "08:05", 104), (1, "08:00", 101)])).Perm
      [(2, "08:05", 102), (2, "08:05", 104), (1, "08:00", 101)] ∧
    QueueStore.snapshot
        (enqueueAll Core.empty [(2, "08:05", 102), (2, "08:05", 104), (1, "08:00", 101)])
      = [(1, "08:00", 101), (2, "08:05", 102), (2, "08:05", 104)] :=
  ⟨(enqueue_sort_invariant
      [(2, "08:05", 102), (2, "08:05", 104), (1, "08:00", 101)]).2.2.1 (by decide),
   by decide⟩

/-! ## Navigation targets and routes (C16, C17) and the age check (C18) -/

theorem pathSegments_flight_details (x : String) :
    pathSegments ("/flight-details/" ++ x)
      = some ("flight-details".data :: dropTrailingEmpty (splitOnSlash x.data)) := by
  rfl

theorem pathSegments_boarding_queue (x : String) :
    pathSegments ("/boarding-queue/" ++ x)
      = some ("boarding-queue".data :: dropTrailingEmpty (splitOnSlash x.data)) := by
  rfl

theorem appRoutes_flight_details (t : List (List Char)) :
    (appRoutes.foldl (betterMatch ("flight-details".data :: t)) none).map (fun m => m.element)
      = some .NotFound := by
  rfl

theorem appRoutes_boarding_queue (t : List (List Char)) :
    (appRoutes.foldl (betterMatch ("boarding-queue".data :: t)) none).map (fun m => m.element)
      = some .NotFound := by
  rfl

/-- C16: after a successful check-in `CheckIn` navigates to `/flight-details/`
followed by the passengerId. No route of `App` has that shape (the page
`FlightDetails` is mounted at `/flight/:passengerId`), so for every
passengerId the target is matched by the catch-all route only and `NotFound`
is rendered. -/
theorem checkin_navigates_to_not_found (passengerId : Scalar) :
    (matchRoutes appRoutes (CheckIn.navigateTarget passengerId)).map (fun m => m.element)
      = some .NotFound ∧
    (CheckIn.handleSubmit acceptingServer validForm).navigateTo = some "/flight-details/7" ∧
    (matchRoutes appRoutes "/flight-details/7").map (fun m => m.element) = some .NotFound ∧
    matchRoutes appRoutes "/flight/7"
      = some { element := .FlightDetails, params := [("passengerId", "7")], score := 17 } := by
  refine ⟨?_, by decide, by decide, by decide⟩
  unfold matchRoutes CheckIn.navigateTarget
  rw [pathSegments_flight_details]
  exact appRoutes_flight_details _

/-- C17: after the flight details are saved `FlightDetails` navigates to
`/boarding-queue/` followed by the passengerId. The page `BoardingQueue` is
mounted at `/boarding/:passengerId`, so for every passengerId the target is
matched by the catch-all route only and `NotFound` is rendered. -/
theorem flight_details_navigates_to_not_found (passengerId : String) :
    (matchRoutes appRoutes (FlightDetails.navigateTarget passengerId)).map (fun m => m.element)
      = some .NotFound ∧
    (matchRoutes appRoutes (FlightDetails.navigateTarget "7")).map (fun m => m.element)
      = some .NotFound ∧
    matchRoutes appRoutes "/boarding/7"
      = some { element := .BoardingQueue, params := [("passengerId", "7")], score := 17 } := by
  refine ⟨?_, by decide, by decide⟩
  unfold matchRoutes FlightDetails.navigateTarget
  rw [pathSegments_boarding_queue]
  exact appRoutes_boarding_queue _

/-- C18: the age check lets text through that is no valid age. `parseInt` gives
`NaN` for `abc`, and both comparisons with `NaN` are false, so no error is
reported; it reads `12abc` and `12.5` as 12. Empty text, and numbers below 1 or
above 120, are rejected as the claim says. -/
theorem age_validation_accepts_non_numbers :
    validateField "age" "abc" = "" ∧
    validateField "age" "12abc" = "" ∧
    validateField "age" "12.5" = "" ∧
    parseInt "abc" = none ∧
    parseInt "12abc" = some 12 ∧
    parseInt "12.5" = some 12 ∧
    validateField "age" "" = "Age is required" ∧
    validateField "age" "0" = "Please enter a valid age (1-120)" ∧
    validateField "age" "-5" = "Please enter a valid age (1-120)" ∧
    validateField "age" "121" = "Please enter a valid age (1-120)" ∧
    validateField "age" "1" = "" ∧
    validateField "age" "120" = "" := by
  decide

/-! ## Contact validation (C19) -/

theorem all_dropWhile_iff (p : Char → Bool) (l : List Char) :
    (∀ x ∈ l.dropWhile p, p x = true) ↔ ∀ x ∈ l, p x = true := by
  induction l with
  | nil => simp
  | cons c cs ih =>
    by_cases h : p c = true
    · rw [List.dropWhile_cons_of_pos h, ih]
      simp [h]
    · rw [List.dropWhile_cons_of_neg h]

theorem jsTrim_eq_nil_iff (cs : List Char) :
    jsTrim cs = [] ↔ ∀ c ∈ cs, isJsWhitespace c = true := by
  unfold jsTrim
  rw [List.reverse_eq_nil_iff, List.dropWhile_eq_nil_iff]
  simp only [List.mem_reverse]
  exact all_dropWhile_iff _ _

theorem mem_stripPhonePunctuation (c : Char) (cs : List Char)
    (h : c ∈ stripPhonePunctuation cs) :
    isJsWhitespace c = false ∧ c ≠ '-' ∧ c ≠ '(' ∧ c ≠ ')' := by
  unfold stripPhonePunctuation at h
  have h2 := (List.mem_filter.mp h).2
  simp only [Bool.not_eq_true', Bool.or_eq_false_iff, decide_eq_false_iff_not] at h2
  exact ⟨h2.1.1.1, h2.1.1.2, h2.1.2, h2.2⟩

theorem inPhoneClass_of_digit (c : Char) (h : isAsciiDigit c = true) : inPhoneClass c = true := by
  simp [inPhoneClass, h]

theorem digit_of_inPhoneClass (c : Char) (h : inPhoneClass c = true)
    (hs : isJsWhitespace c = false ∧ c ≠ '-' ∧ c ≠ '(' ∧ c ≠ ')') : isAsciiDigit c = true := by
  simpa [inPhoneClass, hs.1, hs.2.1, hs.2.2.1, hs.2.2.2] using h

theorem plus_not_inPhoneClass : inPhoneClass '+' = false := by decide

theorem phoneRegexTest_cons_plus (rest : List Char) :
    phoneRegexTest ('+' :: rest) = phoneBody rest := by
  have h : phoneBody ('+' :: rest) = false := by
    simp [phoneBody, plus_not_inPhoneClass]
  simp [phoneRegexTest, h]

theorem phoneRegexTest_of_not_plus (cs : List Char) (h : ∀ rest, cs ≠ '+' :: rest) :
    phoneRegexTest cs = phoneBody cs := by
  unfold phoneRegexTest
  split
  · rename_i rest
    exact absurd rfl (h rest)
  · simp

theorem phoneRegexTest_iff (cs : List Char)
    (hs : ∀ c ∈ cs, isJsWhitespace c = false ∧ c ≠ '-' ∧ c ≠ '(' ∧ c ≠ ')') :
    phoneRegexTest cs = true ↔
      ∃ ds : List Char, (cs = ds ∨ cs = '+' :: ds) ∧ 10 ≤ ds.length ∧
        ∀ c ∈ ds, isAsciiDigit c = true := by
  constructor
  · intro h
    by_cases hp : ∃ rest, cs = '+' :: rest
    · obtain ⟨rest, hrest⟩ := hp
      subst hrest
      rw [phoneRegexTest_cons_plus] at h
      simp only [phoneBody, Bool.and_eq_true, decide_eq_true_eq, List.all_eq_true] at h
      refine ⟨rest, Or.inr rfl, h.1, ?_⟩
      intro c hc
      exact digit_of_inPhoneClass c (h.2 c hc) (hs c (List.mem_cons_of_mem _ hc))
    · rw [phoneRegexTest_of_not_plus cs (fun rest hr => hp ⟨rest, hr⟩)] at h
      simp only [phoneBody, Bool.and_eq_true, decide_eq_true_eq, List.all_eq_true] at h
      refine ⟨cs, Or.inl rfl, h.1, ?_⟩
      intro c hc
      exact digit_of_inPhoneClass c (h.2 c hc) (hs c hc)
  · rintro ⟨ds, hds, hlen, hdig⟩
    have hbody : phoneBody ds = true := by
      simp only [phoneBody, Bool.and_eq_true, decide_eq_true_eq, List.all_eq_true]
      exact ⟨hlen, fun c hc => inPhoneClass_of_digit c (hdig c hc)⟩
    rcases hds with hds | hds
    · subst hds
      simp [phoneRegexTest, hbody]
    · subst hds
      rw [phoneRegexTest_cons_plus]
      exact hbody

/-- C19: contact validation. `validateField('contact', v)` is `Contact number is
required` exactly when `v` is empty or white space only; otherwise it is empty
(no error) exactly when `v` without white space, hyphens and parentheses is an
optional single leading plus sign followed by ten or more decimal digits and
nothing else; otherwise it is `Please enter a valid phone number`. -/
theorem contact_validation (v : String) :
    (validateField "contact" v = "Contact number is required"
      ↔ ∀ c ∈ v.data, isJsWhitespace c = true) ∧
    (¬ (∀ c ∈ v.data, isJsWhitespace c = true) →
      (validateField "contact" v = ""
        ↔ ∃ ds : List Char,
            (stripPhonePunctuation v.data = ds ∨ stripPhonePunctuation v.data = '+' :: ds) ∧
            10 ≤ ds.length ∧ ∀ c ∈ ds, isAsciiDigit c = true)) ∧
    (¬ (∀ c ∈ v.data, isJsWhitespace c = true) →
      ¬ (∃ ds : List Char,
            (stripPhonePunctuation v.data = ds ∨ stripPhonePunctuation v.data = '+' :: ds) ∧
            10 ≤ ds.length ∧ ∀ c ∈ ds, isAsciiDigit c = true) →
      validateField "contact" v = "Please enter a valid phone number") := by
  have hstrip := phoneRegexTest_iff (stripPhonePunctuation v.data)
    (fun c hc => mem_stripPhonePunctuation c v.data hc)
  have hval : validateField "contact" v
      = if jsTrim v.data = [] then "Contact number is required"
        else if !phoneRegexTest (stripPhonePunctuation v.data) then
          "Please enter a valid phone number"
        else "" := by
    simp [validateField]
  refine ⟨?_, ?_, ?_⟩
  · rw [hval, ← jsTrim_eq_nil_iff]
    by_cases ht : jsTrim v.data = []
    · simp [ht]
    · by_cases hr : phoneRegexTest (stripPhonePunctuation v.data) = true
      · simp [ht, hr]
      · simp [ht, hr]
  · intro hws
    rw [← jsTrim_eq_nil_iff] at hws
    rw [← hstrip, hval]
    by_cases hr : phoneRegexTest (stripPhonePunctuation v.data) = true
    · simp [hws, hr]
    · simp [hws, hr]
  · intro hws hne
    rw [← jsTrim_eq_nil_iff] at hws
    rw [← hstrip] at hne
    rw [hval]
    simp [hws, hne]

/-- Witness of `contact_validation`: a formatted number with country code is
accepted, and white space alone is asked for a number. -/
theorem contact_validation_witness :
    validateField "contact" "+1 (555) 123-4567" = "" ∧
    validateField "contact" "   " = "Contact number is required" :=
  ⟨((contact_validation "+1 (555) 123-4567").2.1 (by decide)).mpr
      ⟨"15551234567".data, Or.inr (by decide), by decide, by decide⟩,
   (contact_validation "   ").1.mpr (by decide)⟩

/-! ## Submission of the check-in form (C20) -/

theorem validateField_seatPreference (v : String) : validateField "seatPreference" v = "" := by
  simp [validateField]

theorem validateForm_errors (f : CheckInForm) :
    (validateForm f).1
      = [("name", validateField "name" f.name), ("age", validateField "age" f.age),
         ("contact", validateField "contact" f.contact),
         ("flightNumber", validateField "flightNumber" f.flightNumber)].filter
          (fun kv => decide (kv.2 ≠ "")) := by
  simp only [validateForm, CheckInForm.keys, List.foldl, CheckInForm.get]
  rw [validateField_seatPreference]
  by_cases h1 : validateField "name" f.name = "" <;>
  by_cases h2 : validateField "age" f.age = "" <;>
  by_cases h3 : validateField "contact" f.contact = "" <;>
  by_cases h4 : validateField "flightNumber" f.flightNumber = "" <;>
  simp [h1, h2, h3, h4, List.filter_cons]

theorem validateForm_ok_iff (f : CheckInForm) :
    (validateForm f).2 = true ↔
      validateField "name" f.name = "" ∧ validateField "age" f.age = "" ∧
      validateField "contact" f.contact = "" ∧
      validateField "flightNumber" f.flightNumber = "" := by
  have h : (validateForm f).2 = ((validateForm f).1.length == 0) := rfl
  rw [h, validateForm_errors]
  by_cases h1 : validateField "name" f.name = "" <;>
  by_cases h2 : validateField "age" f.age = "" <;>
  by_cases h3 : validateField "contact" f.contact = "" <;>
  by_cases h4 : validateField "flightNumber" f.flightNumber = "" <;>
  simp [h1, h2, h3, h4, List.filter_cons]

/-- C20: check-in submission is gated by validation. `handleSubmit` sends the
check-in request (the POST of the form to `/check-in`) exactly when
`validateField` reports no error for name, age, contact and flightNumber;
`seatPreference` never yields an error; the `errors` object set by
`validateForm` holds exactly the failing fields, each with the message of
`validateField`; and when a field fails the only effect is the notice. -/
theorem checkin_submission_gated (server : ApiRequest → Except String CheckInResult)
    (f : CheckInForm) (v : String) :
    ((∃ req, Effect.httpRequest req ∈ (CheckIn.handleSubmit server f).effects) ↔
      validateField "name" f.name = "" ∧ validateField "age" f.age = "" ∧
      validateField "contact" f.contact = "" ∧
      validateField "flightNumber" f.flightNumber = "") ∧
    (Effect.httpRequest
        { method := "POST", url := "/check-in", body := some (.value (.record f.toRecord)) }
        ∈ (CheckIn.handleSubmit server f).effects ↔
      validateField "name" f.name = "" ∧ validateField "age" f.age = "" ∧
      validateField "contact" f.contact = "" ∧
      validateField "flightNumber" f.flightNumber = "") ∧
    validateField "seatPreference" v = "" ∧
    (CheckIn.handleSubmit server f).errors
      = [("name", validateField "name" f.name), ("age", validateField "age" f.age),
         ("contact", validateField "contact" f.contact),
         ("flightNumber", validateField "flightNumber" f.flightNumber)].filter
          (fun kv => decide (kv.2 ≠ "")) ∧
    (¬ (validateField "name" f.name = "" ∧ validateField "age" f.age = "" ∧
        validateField "contact" f.contact = "" ∧
        validateField "flightNumber" f.flightNumber = "") →
      (CheckIn.handleSubmit server f).effects
        = [.toastError "Please correct the errors in the form"]) := by
  have hapi : airplaneAPI "checkIn"
      = some (fun passengerData => apiPost "/check-in" (.value passengerData)) := by
    simp [airplaneAPI]
  have herr : (CheckIn.handleSubmit server f).errors = (validateForm f).1 := by
    unfold CheckIn.handleSubmit
    rw [hapi]
    by_cases hv : (validateForm f).2 = true
    · simp only [hv, Bool.not_true, Bool.false_eq_true, if_false]
      cases server (apiPost "/check-in" (.value (.record f.toRecord))) with
      | error message => rfl
      | ok result => by_cases hs : result.success = true <;> simp [hs]
    · simp [hv]
  have hsent : (validateForm f).2 = true →
      Effect.httpRequest
        { method := "POST", url := "/check-in", body := some (.value (.record f.toRecord)) }
        ∈ (CheckIn.handleSubmit server f).effects := by
    intro hv
    unfold CheckIn.handleSubmit
    rw [hapi]
    simp only [hv, Bool.not_true, Bool.false_eq_true, if_false]
    cases server (apiPost "/check-in" (.value (.record f.toRecord))) with
    | error message => simp [apiPost]
    | ok result => by_cases hs : result.success = true <;> simp [hs, apiPost]
  have hblocked : ¬ (validateForm f).2 = true →
      (CheckIn.handleSubmit server f).effects
        = [.toastError "Please correct the errors in the form"] := by
    intro hv
    unfold CheckIn.handleSubmit
    simp [hv]
  refine ⟨?_, ?_, validateField_seatPreference v, ?_, ?_⟩
  · rw [← validateForm_ok_iff]
    constructor
    · rintro ⟨req, hreq⟩
      by_contra hv
      rw [hblocked hv] at hreq
      simp at hreq
    · intro hv
      exact ⟨_, hsent hv⟩
  · rw [← validateForm_ok_iff]
    constructor
    · intro hreq
      by_contra hv
      rw [hblocked hv] at hreq
      simp at hreq
    · exact hsent
  · rw [herr, validateForm_errors]
  · intro hv
    rw [← validateForm_ok_iff] at hv
    exact hblocked hv

/-- Witness of `checkin_submission_gated`: a form with an empty age sends
nothing and reports the age only. -/
theorem checkin_submission_gated_witness :
    (CheckIn.handleSubmit acceptingServer blankAgeForm).effects
      = [.toastError "Please correct the errors in the form"] ∧
    (CheckIn.handleSubmit acceptingServer blankAgeForm).errors = [("age", "Age is required")] :=
  ⟨(checkin_submission_gated acceptingServer blankAgeForm "window").2.2.2.2 (by decide),
   by decide⟩

/-! ## The special-assistance buttons (C21) -/

theorem splitOnComma_ne_nil (cs : List Char) : splitOnComma cs ≠ [] := by
  induction cs with
  | nil => simp [splitOnComma]
  | cons c cs ih =>
    by_cases hc : c = ','
    · simp [splitOnComma, hc]
    · cases hs : splitOnComma cs with
      | nil => exact absurd hs ih
      | cons x xs => simp [splitOnComma, hc, hs, consHead]

theorem splitOnComma_pieces (cs : List Char) : ∀ p ∈ splitOnComma cs, ',' ∉ p := by
  induction cs with
  | nil => simp [splitOnComma]
  | cons c cs ih =>
    by_cases hc : c = ','
    · intro p hp
      simp only [splitOnComma, hc, if_true, List.mem_cons] at hp
      rcases hp with hp | hp
      · rw [hp]
        simp
      · exact ih p hp
    · cases hs : splitOnComma cs with
      | nil => exact absurd hs (splitOnComma_ne_nil cs)
      | cons x xs =>
        rw [hs] at ih
        intro p hp
        simp only [splitOnComma, hc, if_false, hs, consHead, List.mem_cons] at hp
        rcases hp with hp | hp
        · rw [hp]
          intro hmem
          rcases List.mem_cons.mp hmem with h | h
          · exact hc h.symm
          · exact ih x (List.mem_cons_self _ _) h
        · exact ih p (List.mem_cons_of_mem _ hp)

theorem splitOnComma_append_comma (p rest : List Char) (hp : ',' ∉ p) :
    splitOnComma (p ++ ',' :: rest) = p :: splitOnComma rest := by
  induction p with
  | nil => simp [splitOnComma]
  | cons c p ih =>
    have hc : c ≠ ',' := fun h => hp (by simp [h])
    have hp2 : ',' ∉ p := fun h => hp (List.mem_cons_of_mem _ h)
    simp [splitOnComma, hc, ih hp2, consHead]

theorem splitOnComma_of_no_comma (p : List Char) (hp : ',' ∉ p) : splitOnComma p = [p] := by
  induction p with
  | nil => rfl
  | cons c p ih =>
    have hc : c ≠ ',' := fun h => hp (by simp [h])
    have hp2 : ',' ∉ p := fun h => hp (List.mem_cons_of_mem _ h)
    simp [splitOnComma, hc, ih hp2, consHead]

theorem splitOnComma_joinComma (l : List (List Char)) (hne : l ≠ [])
    (hl : ∀ p ∈ l, ',' ∉ p) : splitOnComma (joinComma l) = l := by
  induction l with
  | nil => exact absurd rfl hne
  | cons x rest ih =>
    cases rest with
    | nil => exact splitOnComma_of_no_comma x (hl x (List.mem_cons_self _ _))
    | cons y rest =>
      have hx := hl x (List.mem_cons_self _ _)
      have hrest : ∀ p ∈ y :: rest, ',' ∉ p := fun p hp => hl p (List.mem_cons_of_mem _ hp)
      show splitOnComma (x ++ ',' :: joinComma (y :: rest)) = _
      rw [splitOnComma_append_comma x _ hx, ih (by simp) hrest]

theorem currentNeeds_mk_joinComma (l : List (List Char))
    (hl : ∀ p ∈ l, ',' ∉ p ∧ jsTrim p ≠ []) :
    FlightDetails.currentNeeds (String.mk (joinComma l)) = l := by
  unfold FlightDetails.currentNeeds
  show (splitOnComma (joinComma l)).filter _ = l
  by_cases hne : l = []
  · subst hne
    decide
  · rw [splitOnComma_joinComma l hne (fun p hp => (hl p hp).1)]
    apply List.filter_eq_self.mpr
    intro p hp
    simpa using (hl p hp).2

theorem currentNeeds_pieces (s : String) :
    ∀ p ∈ FlightDetails.currentNeeds s, ',' ∉ p ∧ jsTrim p ≠ [] := by
  intro p hp
  unfold FlightDetails.currentNeeds at hp
  have h := List.mem_filter.mp hp
  exact ⟨splitOnComma_pieces _ p h.1, by simpa using h.2⟩

theorem onClickNeed_of_mem (f : FlightDetailsForm) (v : String)
    (h : v.data ∈ FlightDetails.currentNeeds f.specialNeeds) :
    FlightDetails.onClickNeed f v
      = { f with specialNeeds := String.mk (joinComma
            ((FlightDetails.currentNeeds f.specialNeeds).filter
              (fun n => decide (n ≠ v.data)))) } := by
  simp [FlightDetails.onClickNeed, h]

theorem onClickNeed_of_not_mem (f : FlightDetailsForm) (v : String)
    (h : v.data ∉ FlightDetails.currentNeeds f.specialNeeds) :
    FlightDetails.onClickNeed f v
      = { f with specialNeeds := String.mk (joinComma
            (FlightDetails.currentNeeds f.specialNeeds ++ [v.data])) } := by
  simp [FlightDetails.onClickNeed, h]

theorem currentNeeds_onClickNeed (f : FlightDetailsForm) (v : String)
    (hcomma : ',' ∉ v.data) (hblank : jsTrim v.data ≠ []) :
    FlightDetails.currentNeeds (FlightDetails.onClickNeed f v).specialNeeds
      = if v.data ∈ FlightDetails.currentNeeds f.specialNeeds then
          (FlightDetails.currentNeeds f.specialNeeds).filter (fun n => decide (n ≠ v.data))
        else FlightDetails.currentNeeds f.specialNeeds ++ [v.data] := by
  by_cases h : v.data ∈ FlightDetails.currentNeeds f.specialNeeds
  · rw [onClickNeed_of_mem f v h, if_pos h]
    apply currentNeeds_mk_joinComma
    intro p hp
    exact currentNeeds_pieces _ p (List.mem_filter.mp hp).1
  · rw [onClickNeed_of_not_mem f v h, if_neg h]
    apply currentNeeds_mk_joinComma
    intro p hp
    rcases List.mem_append.mp hp with hp | hp
    · exact currentNeeds_pieces _ p hp
    · rw [List.mem_singleton.mp hp]
      exact ⟨hcomma, hblank⟩

/-- One click on the button of a value that contains no comma and is not
blank: the value is an item afterwards exactly when it was none before, the
other items are the same in number and order, a new value goes last, and the
new string is its items joined by commas. -/
theorem onClickNeed_of_plain_value (f : FlightDetailsForm) (v : String)
    (hcomma : ',' ∉ v.data) (hblank : jsTrim v.data ≠ []) :
    (v.data ∈ FlightDetails.currentNeeds (FlightDetails.onClickNeed f v).specialNeeds
      ↔ v.data ∉ FlightDetails.currentNeeds f.specialNeeds) ∧
    (FlightDetails.currentNeeds (FlightDetails.onClickNeed f v).specialNeeds).filter
        (fun n => decide (n ≠ v.data))
      = (FlightDetails.currentNeeds f.specialNeeds).filter (fun n => decide (n ≠ v.data)) ∧
    (v.data ∉ FlightDetails.currentNeeds f.specialNeeds →
      FlightDetails.currentNeeds (FlightDetails.onClickNeed f v).specialNeeds
        = FlightDetails.currentNeeds f.specialNeeds ++ [v.data]) ∧
    (v.data ∈ FlightDetails.currentNeeds f.specialNeeds →
      FlightDetails.currentNeeds (FlightDetails.onClickNeed f v).specialNeeds
        = (FlightDetails.currentNeeds f.specialNeeds).filter (fun n => decide (n ≠ v.data))) ∧
    (FlightDetails.onClickNeed f v).specialNeeds.data
      = joinComma (FlightDetails.currentNeeds (FlightDetails.onClickNeed f v).specialNeeds) ∧
    (FlightDetails.onClickNeed f v).boardingClass = f.boardingClass := by
  have hcur := currentNeeds_onClickNeed f v hcomma hblank
  by_cases h : v.data ∈ FlightDetails.currentNeeds f.specialNeeds
  · rw [if_pos h] at hcur
    refine ⟨?_, ?_, fun hn => absurd h hn, fun _ => hcur, ?_, ?_⟩
    · rw [hcur]
      simp [h]
    · rw [hcur, List.filter_filter]
      simp
    · rw [hcur, onClickNeed_of_mem f v h]
    · rw [onClickNeed_of_mem f v h]
  · rw [if_neg h] at hcur
    refine ⟨?_, ?_, fun _ => hcur, fun hm => absurd hm h, ?_, ?_⟩
    · rw [hcur]
      simp [h]
    · rw [hcur, List.filter_append]
      simp
    · rw [hcur, onClickNeed_of_not_mem f v h]
    · rw [onClickNeed_of_not_mem f v h]

/-- The four button values contain no comma and are not blank. -/
theorem needValues_plain :
    ∀ w ∈ FlightDetails.needValues, ',' ∉ w.data ∧ jsTrim w.data ≠ [] := by
  decide

/-- C21: the special-assistance button is a true toggle on the comma-separated
list. For every `specialNeeds` string and every need value `v` of the four
buttons (none contains a comma), with the items of a string being its
non-blank comma-separated pieces: after one click `v` is an item of the new
string exactly when it was no item of the old one, the items different from
`v` are kept, as often and in the same order, a newly added `v` stands last,
and the new string is its items joined by commas; `boardingClass` is
untouched. -/
theorem special_need_toggle (f : FlightDetailsForm) (v : String)
    (hv : v ∈ FlightDetails.needValues) :
    ',' ∉ v.data ∧
    (v.data ∈ FlightDetails.currentNeeds (FlightDetails.onClickNeed f v).specialNeeds
      ↔ v.data ∉ FlightDetails.currentNeeds f.specialNeeds) ∧
    (FlightDetails.currentNeeds (FlightDetails.onClickNeed f v).specialNeeds).filter
        (fun n => decide (n ≠ v.data))
      = (FlightDetails.currentNeeds f.specialNeeds).filter (fun n => decide (n ≠ v.data)) ∧
    (v.data ∉ FlightDetails.currentNeeds f.specialNeeds →
      FlightDetails.currentNeeds (FlightDetails.onClickNeed f v).specialNeeds
        = FlightDetails.currentNeeds f.specialNeeds ++ [v.data]) ∧
    (v.data ∈ FlightDetails.currentNeeds f.specialNeeds →
      FlightDetails.currentNeeds (FlightDetails.onClickNeed f v).specialNeeds
        = (FlightDetails.currentNeeds f.specialNeeds).filter (fun n => decide (n ≠ v.data))) ∧
    (FlightDetails.onClickNeed f v).specialNeeds.data
      = joinComma (FlightDetails.currentNeeds (FlightDetails.onClickNeed f v).specialNeeds) ∧
    (FlightDetails.onClickNeed f v).boardingClass = f.boardingClass :=
  ⟨(needValues_plain v hv).1,
   onClickNeed_of_plain_value f v (needValues_plain v hv).1 (needValues_plain v hv).2⟩

/-- Witness of `special_need_toggle`: with `wheelchair,dietary` selected, the
wheelchair button removes it and the infant button adds `infant` last. -/
theorem special_need_toggle_witness :
    ("wheelchair" ∈ FlightDetails.needValues ∧ "infant" ∈ FlightDetails.needValues) ∧
    FlightDetails.currentNeeds
        (FlightDetails.onClickNeed
          { boardingClass := "economy", specialNeeds := "wheelchair,dietary" }
          "wheelchair").specialNeeds
      = (FlightDetails.currentNeeds "wheelchair,dietary").filter
          (fun n => decide (n ≠ "wheelchair".data)) ∧
    FlightDetails.currentNeeds
        (FlightDetails.onClickNeed
          { boardingClass := "economy", specialNeeds := "wheelchair,dietary" }
          "infant").specialNeeds
      = FlightDetails.currentNeeds "wheelchair,dietary" ++ ["infant".data] ∧
    (FlightDetails.onClickNeed
        { boardingClass := "economy", specialNeeds := "wheelchair,dietary" }
        "infant").specialNeeds = "wheelchair,dietary,infant" :=
  ⟨by decide,
   (special_need_toggle { boardingClass := "economy", specialNeeds := "wheelchair,dietary" }
      "wheelchair" (by decide)).2.2.2.2.1 (by decide),
   (special_need_toggle { boardingClass := "economy", specialNeeds := "wheelchair,dietary" }
      "infant" (by decide)).2.2.2.1 (by decide),
   by decide⟩

end FlightManagement
